import Mathlib

/-!
Shallow embedding of the rps PlayStation emulator core (Rust) in Lean 4,
together with theorems settling the frozen claims about its specification.

Conventions of the embedding:
* u32 / u16 / u8 values are Nat; Rust casts (as u8 / as u16 / as u32) become
  explicit mod by 2^8 / 2^16 / 2^32, and wrapping arithmetic becomes mod 2^32.
* i32 / i16 values are interpreted through toI32 / sign-extension helpers.
* Rust panics, todo!() and unreachable!() become Option results (none).
* Byte-addressed Vec of u8 memories become functions Nat to Nat whose values
  are bytes (stores always write values reduced mod 256).
* Mutation becomes explicit state passing on structures.
-/

/-- Two to the 32, the u32 modulus. -/
def U32LIM : Nat := 4294967296

/-- Interpret a u32 value (a Nat) as an i32 (two's complement). -/
def toI32 (n : Nat) : Int :=
  if n % U32LIM < 2147483648 then ((n % U32LIM : Nat) : Int)
  else ((n % U32LIM : Nat) : Int) - 4294967296

/-- Truncate an Int to a u32 bit pattern (two's complement), as a Nat. -/
def u32ofInt (i : Int) : Nat := (i % 4294967296).toNat

/-- Rust u32 wrapping_add. -/
def wadd32 (a b : Nat) : Nat := (a + b) % U32LIM

/-- Rust u32 wrapping_sub. -/
def wsub32 (a b : Nat) : Nat := (a + (U32LIM - b % U32LIM)) % U32LIM

/-- Rust u32 shift left (shifted-out bits discarded). -/
def shl32 (a n : Nat) : Nat := (a <<< n) % U32LIM

/-- Rust bool as u32 (0 or 1). -/
def b32 (b : Bool) : Nat := if b then 1 else 0

/-- Sign extension of a 16-bit value to a u32 bit pattern (as i16 as u32). -/
def sext16 (v : Nat) : Nat :=
  let v := v % 65536
  if v < 32768 then v else v + 0xFFFF0000

/-- Sign extension of an 8-bit value to a u32 bit pattern (as i8 as u32). -/
def sext8 (v : Nat) : Nat :=
  let v := v % 256
  if v < 128 then v else v + 0xFFFFFF00

/-! ## src/ram.rs -/

/-- Main RAM (2 MiB): a byte map.  Source: struct Ram \x7b data: Vec<u8> \x7d. -/
structure Ram where
  data : Nat → Nat

/-- Ram::new, every byte initialized to 0xCA. -/
def Ram.new : Ram := ⟨fun _ => 0xCA⟩

/-- Ram::load32: little-endian reassembly of four consecutive bytes. -/
def Ram.load32 (r : Ram) (offset : Nat) : Nat :=
  let b0 := r.data (offset + 0)
  let b1 := r.data (offset + 1)
  let b2 := r.data (offset + 2)
  let b3 := r.data (offset + 3)
  b0 ||| (b1 <<< 8) ||| (b2 <<< 16) ||| (b3 <<< 24)

/-- Ram::load16. -/
def Ram.load16 (r : Ram) (offset : Nat) : Nat :=
  let b0 := r.data (offset + 0)
  let b1 := r.data (offset + 1)
  b0 ||| (b1 <<< 8)

/-- Ram::load8. -/
def Ram.load8 (r : Ram) (offset : Nat) : Nat := r.data offset

/-- Ram::store32: store four bytes little-endian (the as u8 casts are mod 256). -/
def Ram.store32 (r : Ram) (offset val : Nat) : Ram :=
  ⟨Function.update (Function.update (Function.update (Function.update r.data
    (offset + 0) ((val >>> 0) % 256))
    (offset + 1) ((val >>> 8) % 256))
    (offset + 2) ((val >>> 16) % 256))
    (offset + 3) ((val >>> 24) % 256)⟩

/-- Ram::store16. -/
def Ram.store16 (r : Ram) (offset val : Nat) : Ram :=
  ⟨Function.update (Function.update r.data
    (offset + 0) ((val >>> 0) % 256))
    (offset + 1) ((val >>> 8) % 256)⟩

/-- Ram::store8. -/
def Ram.store8 (r : Ram) (offset val : Nat) : Ram :=
  ⟨Function.update r.data offset (val % 256)⟩

/-! ## src/scratchpad.rs -/

/-- Scratchpad (1 KiB): a byte map. -/
structure ScratchPad where
  data : Nat → Nat

/-- ScratchPad::new, every byte initialized to 0xCA. -/
def ScratchPad.new : ScratchPad := ⟨fun _ => 0xCA⟩

/-- ScratchPad::load32. -/
def ScratchPad.load32 (r : ScratchPad) (offset : Nat) : Nat :=
  let b0 := r.data (offset + 0)
  let b1 := r.data (offset + 1)
  let b2 := r.data (offset + 2)
  let b3 := r.data (offset + 3)
  b0 ||| (b1 <<< 8) ||| (b2 <<< 16) ||| (b3 <<< 24)

/-- ScratchPad::load16. -/
def ScratchPad.load16 (r : ScratchPad) (offset : Nat) : Nat :=
  let b0 := r.data (offset + 0)
  let b1 := r.data (offset + 1)
  b0 ||| (b1 <<< 8)

/-- ScratchPad::load8. -/
def ScratchPad.load8 (r : ScratchPad) (offset : Nat) : Nat := r.data offset

/-- ScratchPad::store32. -/
def ScratchPad.store32 (r : ScratchPad) (offset val : Nat) : ScratchPad :=
  ⟨Function.update (Function.update (Function.update (Function.update r.data
    (offset + 0) ((val >>> 0) % 256))
    (offset + 1) ((val >>> 8) % 256))
    (offset + 2) ((val >>> 16) % 256))
    (offset + 3) ((val >>> 24) % 256)⟩

/-- ScratchPad::store16. -/
def ScratchPad.store16 (r : ScratchPad) (offset val : Nat) : ScratchPad :=
  ⟨Function.update (Function.update r.data
    (offset + 0) ((val >>> 0) % 256))
    (offset + 1) ((val >>> 8) % 256)⟩

/-- ScratchPad::store8. -/
def ScratchPad.store8 (r : ScratchPad) (offset val : Nat) : ScratchPad :=
  ⟨Function.update r.data offset (val % 256)⟩

/-! ## src/bios.rs -/

/-- BIOS ROM (512 KiB): a byte map loaded from a file at startup. -/
structure Bios where
  data : Nat → Nat

/-- Bios::load32. -/
def Bios.load32 (r : Bios) (offset : Nat) : Nat :=
  let b0 := r.data (offset + 0)
  let b1 := r.data (offset + 1)
  let b2 := r.data (offset + 2)
  let b3 := r.data (offset + 3)
  b0 ||| (b1 <<< 8) ||| (b2 <<< 16) ||| (b3 <<< 24)

/-- Bios::load8. -/
def Bios.load8 (r : Bios) (offset : Nat) : Nat := r.data offset

/-! ## src/interconnect.rs, mod map -/

namespace map

/-- Range(start, length) from the address map. -/
def Range : Type := Nat × Nat

/-- Range::contains: relative offset if the absolute address is in range. -/
def Range.contains (r : Range) (addr : Nat) : Option Nat :=
  if r.1 ≤ addr ∧ addr < r.1 + r.2 then some (addr - r.1) else none

/-- REGION_MASK table keyed on address bits 31:29. -/
def REGION_MASK : List Nat :=
  [0xFFFFFFFF, 0xFFFFFFFF, 0xFFFFFFFF, 0xFFFFFFFF,
   0x7FFFFFFF,
   0x1FFFFFFF,
   0xFFFFFFFF, 0xFFFFFFFF]

/-- map::mask_region: mask the address by the per-segment mask.  The source
indexes the 8-entry array with addr >> 29 (always < 8 for a u32); the getD
default is never used. -/
def mask_region (addr : Nat) : Nat :=
  addr &&& REGION_MASK.getD (addr >>> 29) 0

def RAM : Range := (0x00000000, 2 * 1024 * 1024)
def EXPANSION_1 : Range := (0x1F000000, 256)
def SCRATCHPAD : Range := (0x1F800000, 0x400)
def MEM_CONTROL : Range := (0x1F801000, 36)
def JOYPAD : Range := (0x1F801040, 16)
def SIO : Range := (0x1F801050, 16)
def RAM_SIZE : Range := (0x1F801060, 4)
def IRQ_CONTROL : Range := (0x1F801070, 8)
def DMA : Range := (0x1F801080, 0x80)
def TIMERS : Range := (0x1F801100, 48)
def CDROM : Range := (0x1F801800, 4)
def GPU : Range := (0x1F801810, 16)
def SPU : Range := (0x1F801C00, 640)
def EXPANSION_2 : Range := (0x1F802000, 66)
def EXPANSION_3 : Range := (0x1FA00000, 2048 * 1024)
def BIOS : Range := (0x1FC00000, 512 * 1024)
def CACHE_SIZE : Range := (0xFFFE0130, 4)

end map

/-! ## src/dma.rs -/

inductive Direction where
  | ToRam
  | FromRam
deriving DecidableEq

/-- Direction discriminant (ToRam = 0, FromRam = 1). -/
def Direction.toNat : Direction → Nat
  | .ToRam => 0
  | .FromRam => 1

inductive DmaStep where
  | Increment
  | Decrement
deriving DecidableEq

/-- Step discriminant (Increment = 0, Decrement = 1).  The Rust enum is named
Step; renamed DmaStep in the embedding to avoid clashing with library names. -/
def DmaStep.toNat : DmaStep → Nat
  | .Increment => 0
  | .Decrement => 1

inductive DmaSync where
  | Manual
  | Request
  | LinkedList
deriving DecidableEq

/-- Sync discriminant (Manual = 0, Request = 1, LinkedList = 2); Rust name Sync. -/
def DmaSync.toNat : DmaSync → Nat
  | .Manual => 0
  | .Request => 1
  | .LinkedList => 2

inductive Port where
  | MdecIn
  | MdecOut
  | Gpu
  | CdRom
  | Spu
  | Pio
  | Otc
deriving DecidableEq

/-- Port::from_index; out-of-range index panics in the source. -/
def Port.from_index : Nat → Option Port
  | 0 => some .MdecIn
  | 1 => some .MdecOut
  | 2 => some .Gpu
  | 3 => some .CdRom
  | 4 => some .Spu
  | 5 => some .Pio
  | 6 => some .Otc
  | _ => none

/-- One DMA channel (src/dma.rs struct Channel). -/
structure Channel where
  enable : Bool
  direction : Direction
  step : DmaStep
  sync : DmaSync
  trigger : Bool
  chop : Bool
  chop_dma_sz : Nat
  chop_cpu_sz : Nat
  dummy : Nat
  base : Nat
  block_size : Nat
  block_count : Nat

/-- Channel::new. -/
def Channel.new : Channel :=
  { enable := false, direction := .ToRam, step := .Increment, sync := .Manual,
    trigger := false, chop := false, chop_dma_sz := 0, chop_cpu_sz := 0,
    dummy := 0, base := 0, block_size := 0, block_count := 0 }

/-- Channel::active. -/
def Channel.active (c : Channel) : Bool :=
  let trigger := match c.sync with
    | .Manual => c.trigger
    | _ => true
  c.enable && trigger

/-- Channel::transfer_size (None in LinkedList mode). -/
def Channel.transfer_size (c : Channel) : Option Nat :=
  let bs := c.block_size
  let bc := c.block_count
  match c.sync with
  | .Manual => some bs
  | .Request => some (bc * bs)
  | .LinkedList => none

/-- Channel::done. -/
def Channel.done (c : Channel) : Channel :=
  { c with enable := false, trigger := false }

/-- Channel::set_base (24-bit mask). -/
def Channel.set_base (c : Channel) (val : Nat) : Channel :=
  { c with base := val &&& 0xFFFFFF }

/-- Channel::control: reassemble the channel control word. -/
def Channel.control (c : Channel) : Nat :=
  (c.direction.toNat <<< 0) |||
  (c.step.toNat <<< 1) |||
  (b32 c.chop <<< 8) |||
  (c.sync.toNat <<< 9) |||
  (c.chop_dma_sz <<< 16) |||
  (c.chop_cpu_sz <<< 20) |||
  (b32 c.enable <<< 24) |||
  (b32 c.trigger <<< 28) |||
  (c.dummy <<< 29)

/-- Channel::set_control; an unknown sync mode (3) panics in the source. -/
def Channel.set_control (c : Channel) (val : Nat) : Option Channel := do
  let direction := if val &&& 1 ≠ 0 then Direction.FromRam else Direction.ToRam
  let step := if (val >>> 1) &&& 1 ≠ 0 then DmaStep.Decrement else DmaStep.Increment
  let chop := (val >>> 8) &&& 1 ≠ 0
  let sync ← match (val >>> 9) &&& 3 with
    | 0 => some DmaSync.Manual
    | 1 => some DmaSync.Request
    | 2 => some DmaSync.LinkedList
    | _ => none
  pure { c with
    direction := direction, step := step, chop := chop, sync := sync,
    chop_dma_sz := (val >>> 16) &&& 7,
    chop_cpu_sz := (val >>> 20) &&& 7,
    enable := (val >>> 24) &&& 1 ≠ 0,
    trigger := (val >>> 28) &&& 1 ≠ 0,
    dummy := (val >>> 29) &&& 3 }

/-- Channel::block_control. -/
def Channel.block_control (c : Channel) : Nat :=
  (c.block_count <<< 16) ||| c.block_size

/-- Channel::set_block_control (as u16 casts are mod 65536). -/
def Channel.set_block_control (c : Channel) (val : Nat) : Channel :=
  { c with block_size := val % 65536, block_count := (val >>> 16) % 65536 }

/-- The DMA controller (src/dma.rs struct Dma); the channel array is a map
from Port. -/
structure Dma where
  control : Nat
  irq_en : Bool
  channel_irq_en : Nat
  channel_irq_flags : Nat
  force_irq : Bool
  irq_dummy : Nat
  channels : Port → Channel

/-- Dma::new. -/
def Dma.new : Dma :=
  { control := 0x07654321, irq_en := false, channel_irq_en := 0,
    channel_irq_flags := 0, force_irq := false, irq_dummy := 0,
    channels := fun _ => Channel.new }

/-- Dma::set_control. -/
def Dma.set_control (d : Dma) (val : Nat) : Dma := { d with control := val }

/-- Dma::irq. -/
def Dma.irq (d : Dma) : Bool :=
  let channel_irq := d.channel_irq_flags &&& d.channel_irq_en
  d.force_irq || (d.irq_en && channel_irq ≠ 0)

/-- Dma::interrupt: reassemble the interrupt register. -/
def Dma.interrupt (d : Dma) : Nat :=
  d.irq_dummy |||
  (b32 d.force_irq <<< 15) |||
  (d.channel_irq_en <<< 16) |||
  (b32 d.irq_en <<< 23) |||
  (d.channel_irq_flags <<< 24) |||
  (b32 d.irq <<< 31)

/-- Dma::set_interrupt (the !ack on a u8 is xor with 0xFF). -/
def Dma.set_interrupt (d : Dma) (val : Nat) : Dma :=
  let ack := (val >>> 24) &&& 0x3F
  { d with
    irq_dummy := val &&& 0x3F,
    force_irq := (val >>> 15) &&& 1 ≠ 0,
    channel_irq_en := (val >>> 16) &&& 0x7F,
    irq_en := (val >>> 23) &&& 1 ≠ 0,
    channel_irq_flags := d.channel_irq_flags &&& (ack ^^^ 0xFF) }

/-- Dma::channel. -/
def Dma.channel (d : Dma) (port : Port) : Channel := d.channels port

/-- Updating one channel (the channel_mut borrow in the source). -/
def Dma.set_channel (d : Dma) (port : Port) (c : Channel) : Dma :=
  { d with channels := Function.update d.channels port c }

/-! ## src/gpu/primitive.rs and the renderer interface

The renderer back-end (src/gpu/renderer.rs) is an external collaborator
(OpenGL window); the core only consumes push_triangles, push_quad and
set_draw_offset.  The embedding records those calls in a sink. -/

/-- Interpret a u32 low half as an i16 (Position::from_gp0 casts). -/
def toI16 (n : Nat) : Int :=
  if n % 65536 < 32768 then ((n % 65536 : Nat) : Int)
  else ((n % 65536 : Nat) : Int) - 65536

/-- Position(i16, i16), from primitive.rs. -/
structure Position where
  x : Int
  y : Int
deriving DecidableEq

/-- Position::from_gp0. -/
def Position.from_gp0 (val : Nat) : Position :=
  ⟨toI16 val, toI16 (val >>> 16)⟩

/-- Color(u8, u8, u8), from primitive.rs. -/
structure Color where
  r : Nat
  g : Nat
  b : Nat
deriving DecidableEq

/-- Color::from_gp0.  The source's blue component is the boolean comparison
(val > 16) as u8, reproduced here as written. -/
def Color.from_gp0 (val : Nat) : Color :=
  ⟨val % 256, (val >>> 8) % 256, b32 (decide (val > 16))⟩

/-- Calls the core makes into the external renderer. -/
inductive RenderCall where
  | pushTriangles (positions : List Position) (colors : List Color)
  | pushQuad (positions : List Position) (colors : List Color)
  | setDrawOffset (x y : Int)

/-- The renderer as a call sink (external collaborator). -/
structure Renderer where
  calls : List RenderCall

/-- A fresh renderer sink. -/
def Renderer.new : Renderer := ⟨[]⟩

/-- Renderer::push_triangles, recorded. -/
def Renderer.push_triangles (r : Renderer) (ps : List Position) (cs : List Color) : Renderer :=
  ⟨r.calls ++ [RenderCall.pushTriangles ps cs]⟩

/-- Renderer::push_quad, recorded. -/
def Renderer.push_quad (r : Renderer) (ps : List Position) (cs : List Color) : Renderer :=
  ⟨r.calls ++ [RenderCall.pushQuad ps cs]⟩

/-- Renderer::set_draw_offset, recorded. -/
def Renderer.set_draw_offset (r : Renderer) (x y : Int) : Renderer :=
  ⟨r.calls ++ [RenderCall.setDrawOffset x y]⟩

/-! ## src/gpu/command.rs -/

/-- CommandBuffer: a 12-word buffer with a length.  The source's Index op
panics when index >= len; every embedded caller indexes below the decoded
command length, so the buffer map is read directly. -/
structure CommandBuffer where
  buffer : Nat → Nat
  len : Nat

/-- CommandBuffer::new. -/
def CommandBuffer.new : CommandBuffer := ⟨fun _ => 0, 0⟩

/-- CommandBuffer::clear. -/
def CommandBuffer.clear (c : CommandBuffer) : CommandBuffer := { c with len := 0 }

/-- CommandBuffer::push_word. -/
def CommandBuffer.push_word (c : CommandBuffer) (word : Nat) : CommandBuffer :=
  { c with buffer := Function.update c.buffer c.len word, len := c.len + 1 }

/-- CommandBuffer::val1. -/
def CommandBuffer.val1 (c : CommandBuffer) : Nat := c.buffer 0

/-- CommandBuffer index (c[i]). -/
def CommandBuffer.get (c : CommandBuffer) (i : Nat) : Nat := c.buffer i

/-! ## src/gpu/gpu.rs -/

inductive TextureDepth where
  | T4Bit
  | T8Bit
  | T15Bit

/-- TextureDepth discriminant. -/
def TextureDepth.toNat : TextureDepth → Nat
  | .T4Bit => 0
  | .T8Bit => 1
  | .T15Bit => 2

inductive GpuField where
  | Top
  | Bottom

/-- Field discriminant (Top = 1, Bottom = 0).  The Rust enum is named Field;
renamed GpuField to avoid clashing with the Mathlib Field class. -/
def GpuField.toNat : GpuField → Nat
  | .Top => 1
  | .Bottom => 0

/-- HorizontalRes(u8). -/
structure HorizontalRes where
  hr : Nat

/-- HorizontalRes::from_fields. -/
def HorizontalRes.from_fields (hr1 hr2 : Nat) : HorizontalRes :=
  ⟨(hr2 &&& 1) ||| ((hr1 &&& 3) <<< 1)⟩

/-- HorizontalRes::into_status. -/
def HorizontalRes.into_status (h : HorizontalRes) : Nat := h.hr <<< 16

inductive VerticalRes where
  | Y240Lines
  | Y480Lines

/-- VerticalRes discriminant. -/
def VerticalRes.toNat : VerticalRes → Nat
  | .Y240Lines => 0
  | .Y480Lines => 1

inductive VMode where
  | Ntsc
  | Pal

/-- VMode discriminant. -/
def VMode.toNat : VMode → Nat
  | .Ntsc => 0
  | .Pal => 1

inductive DisplayDepth where
  | D15Bits
  | D24Bits

/-- DisplayDepth discriminant. -/
def DisplayDepth.toNat : DisplayDepth → Nat
  | .D15Bits => 0
  | .D24Bits => 1

inductive DmaDirection where
  | Off
  | Fifo
  | CpuToGp0
  | VramToCpu

/-- DmaDirection discriminant. -/
def DmaDirection.toNat : DmaDirection → Nat
  | .Off => 0
  | .Fifo => 1
  | .CpuToGp0 => 2
  | .VramToCpu => 3

inductive Gp0Mode where
  | Command
  | ImageLoad

/-- The gp0_command_method function pointer, reified as a tag for the finite
set of GP0 handlers appearing in the source's dispatch table. -/
inductive Gp0Method where
  | nop
  | clear_cache
  | quad_mono_opaq
  | quad_texture_blend_opaq
  | triangle_shaded_opaq
  | quad_shaded_opaq
  | image_load
  | image_store
  | draw_mode
  | texture_window
  | drawing_area_top_left
  | drawing_area_bottom_right
  | drawing_offset
  | mask_bit_setting

/-- GPU state (src/gpu/gpu.rs struct Gpu). -/
structure Gpu where
  page_base_x : Nat
  page_base_y : Nat
  semi_transparency : Nat
  texture_depth : TextureDepth
  dithering : Bool
  draw_to_display : Bool
  force_set_mask_bit : Bool
  preserve_masked_pixels : Bool
  field : GpuField
  texture_disable : Bool
  hres : HorizontalRes
  vres : VerticalRes
  vmode : VMode
  display_depth : DisplayDepth
  interlaced : Bool
  display_disabled : Bool
  interrupt : Bool
  dma_direction : DmaDirection
  rectangle_texture_x_flip : Bool
  rectangle_texture_y_flip : Bool
  texture_window_x_mask : Nat
  texture_window_y_mask : Nat
  texture_window_x_offset : Nat
  texture_window_y_offset : Nat
  drawing_area_left : Nat
  drawing_area_top : Nat
  drawing_area_right : Nat
  drawing_area_bottom : Nat
  display_vram_x_start : Nat
  display_vram_y_start : Nat
  display_horiz_start : Nat
  display_horiz_end : Nat
  display_line_start : Nat
  display_line_end : Nat
  gp0_mode : Gp0Mode
  gp0_words_remaining : Nat
  gp0_command : CommandBuffer
  gp0_command_method : Gp0Method
  renderer : Renderer

/-- Gpu::new (the initial command method closure is a nop). -/
def Gpu.new (renderer : Renderer) : Gpu :=
  { page_base_x := 0, page_base_y := 0, semi_transparency := 0,
    texture_depth := .T4Bit, dithering := false, draw_to_display := false,
    force_set_mask_bit := false, preserve_masked_pixels := false,
    field := .Top, texture_disable := false,
    hres := HorizontalRes.from_fields 0 0, vres := .Y240Lines,
    vmode := .Ntsc, display_depth := .D15Bits, interlaced := true,
    display_disabled := true, interrupt := false, dma_direction := .Off,
    rectangle_texture_x_flip := false, rectangle_texture_y_flip := false,
    texture_window_x_mask := 0, texture_window_y_mask := 0,
    texture_window_x_offset := 0, texture_window_y_offset := 0,
    drawing_area_left := 0, drawing_area_top := 0, drawing_area_right := 0,
    drawing_area_bottom := 0, display_vram_x_start := 0,
    display_vram_y_start := 0, display_horiz_start := 0,
    display_horiz_end := 0, display_line_start := 0, display_line_end := 0,
    gp0_command := CommandBuffer.new, gp0_words_remaining := 0,
    gp0_command_method := .nop, gp0_mode := .Command, renderer := renderer }

/-- Gpu::status: reassemble the GPUSTAT word. -/
def Gpu.status (g : Gpu) : Nat :=
  let r := (g.page_base_x <<< 0) |||
    (g.page_base_y <<< 4) |||
    (g.semi_transparency <<< 5) |||
    (g.texture_depth.toNat <<< 7) |||
    (b32 g.dithering <<< 9) |||
    (b32 g.draw_to_display <<< 10) |||
    (b32 g.force_set_mask_bit <<< 11) |||
    (b32 g.preserve_masked_pixels <<< 12) |||
    (g.field.toNat <<< 13) |||
    (b32 g.texture_disable <<< 15) |||
    g.hres.into_status |||
    (g.vmode.toNat <<< 20) |||
    (g.display_depth.toNat <<< 21) |||
    (b32 g.interlaced <<< 22) |||
    (b32 g.display_disabled <<< 23) |||
    (b32 g.interlaced <<< 24) |||
    (1 <<< 26) ||| (1 <<< 27) ||| (1 <<< 28) |||
    (g.dma_direction.toNat <<< 29)
  let dma_request := match g.dma_direction with
    | .Off => 0
    | .Fifo => 1
    | .CpuToGp0 => (r >>> 28) &&& 1
    | .VramToCpu => (r >>> 27) &&& 1
  r ||| (dma_request <<< 25)

/-- Gpu::read (GPUREAD is a stub returning 0 in the source). -/
def Gpu.read (_ : Gpu) : Nat := 0

/-- Gpu::gp0_nop. -/
def Gpu.gp0_nop (g : Gpu) : Gpu := g

/-- Gpu::gp0_clear_cache. -/
def Gpu.gp0_clear_cache (g : Gpu) : Gpu := g

/-- Gpu::gp0_quad_mono_opaque. -/
def Gpu.gp0_quad_mono_opaq (g : Gpu) : Gpu :=
  let positions := [Position.from_gp0 (g.gp0_command.get 1),
    Position.from_gp0 (g.gp0_command.get 2),
    Position.from_gp0 (g.gp0_command.get 3),
    Position.from_gp0 (g.gp0_command.get 4)]
  let c := Color.from_gp0 (g.gp0_command.get 0)
  { g with renderer := g.renderer.push_quad positions [c, c, c, c] }

/-- Gpu::gp0_quad_texture_blend_opaque. -/
def Gpu.gp0_quad_texture_blend_opaq (g : Gpu) : Gpu :=
  let positions := [Position.from_gp0 (g.gp0_command.get 1),
    Position.from_gp0 (g.gp0_command.get 3),
    Position.from_gp0 (g.gp0_command.get 5),
    Position.from_gp0 (g.gp0_command.get 7)]
  let c : Color := ⟨0x80, 0x00, 0x00⟩
  { g with renderer := g.renderer.push_quad positions [c, c, c, c] }

/-- Gpu::gp0_triangle_shaded_opaque. -/
def Gpu.gp0_triangle_shaded_opaq (g : Gpu) : Gpu :=
  let positions := [Position.from_gp0 (g.gp0_command.get 1),
    Position.from_gp0 (g.gp0_command.get 3),
    Position.from_gp0 (g.gp0_command.get 5)]
  let colors := [Color.from_gp0 (g.gp0_command.get 0),
    Color.from_gp0 (g.gp0_command.get 2),
    Color.from_gp0 (g.gp0_command.get 4)]
  { g with renderer := g.renderer.push_triangles positions colors }

/-- Gpu::gp0_quad_shaded_opaque. -/
def Gpu.gp0_quad_shaded_opaq (g : Gpu) : Gpu :=
  let positions := [Position.from_gp0 (g.gp0_command.get 1),
    Position.from_gp0 (g.gp0_command.get 3),
    Position.from_gp0 (g.gp0_command.get 5),
    Position.from_gp0 (g.gp0_command.get 7)]
  let colors := [Color.from_gp0 (g.gp0_command.get 0),
    Color.from_gp0 (g.gp0_command.get 2),
    Color.from_gp0 (g.gp0_command.get 4),
    Color.from_gp0 (g.gp0_command.get 6)]
  { g with renderer := g.renderer.push_quad positions colors }

/-- Gpu::gp0_image_load. -/
def Gpu.gp0_image_load (g : Gpu) : Gpu :=
  let res := g.gp0_command.get 2
  let width := res &&& 0xFFFF
  let height := res >>> 16
  let imgsize := width * height
  let imgsize := (imgsize + 1) &&& 0xFFFFFFFE
  { g with gp0_words_remaining := imgsize / 2, gp0_mode := .ImageLoad }

/-- Gpu::gp0_image_store (logs only). -/
def Gpu.gp0_image_store (g : Gpu) : Gpu := g

/-- Gpu::gp0_draw_mode; an unhandled texture depth (3) panics in the source. -/
def Gpu.gp0_draw_mode (g : Gpu) : Option Gpu := do
  let val := g.gp0_command.val1
  let texture_depth ← match (val >>> 7) &&& 3 with
    | 0 => some TextureDepth.T4Bit
    | 1 => some TextureDepth.T8Bit
    | 2 => some TextureDepth.T15Bit
    | _ => none
  pure { g with
    page_base_x := val &&& 0xF,
    page_base_y := (val >>> 4) &&& 1,
    semi_transparency := (val >>> 5) &&& 3,
    texture_depth := texture_depth,
    dithering := (val >>> 9) &&& 1 ≠ 0,
    draw_to_display := (val >>> 10) &&& 1 ≠ 0,
    texture_disable := (val >>> 11) &&& 1 ≠ 0,
    rectangle_texture_x_flip := (val >>> 12) &&& 1 ≠ 0,
    rectangle_texture_y_flip := (val >>> 13) &&& 1 ≠ 0 }

/-- Gpu::gp0_texture_window. -/
def Gpu.gp0_texture_window (g : Gpu) : Gpu :=
  let val := g.gp0_command.val1
  { g with
    texture_window_x_mask := val &&& 0x1F,
    texture_window_y_mask := (val >>> 5) &&& 0x1F,
    texture_window_x_offset := (val >>> 10) &&& 0x1F,
    texture_window_y_offset := (val >>> 15) &&& 0x1F }

/-- Gpu::gp0_drawing_area_top_left. -/
def Gpu.gp0_drawing_area_top_left (g : Gpu) : Gpu :=
  let val := g.gp0_command.val1
  { g with
    drawing_area_top := (val >>> 10) &&& 0x3FF,
    drawing_area_left := val &&& 0x3FF }

/-- Gpu::gp0_drawing_area_bottom_right. -/
def Gpu.gp0_drawing_area_bottom_right (g : Gpu) : Gpu :=
  let val := g.gp0_command.val1
  { g with
    drawing_area_bottom := (val >>> 10) &&& 0x3FF,
    drawing_area_right := val &&& 0x3FF }

/-- Sign extension of an 11-bit field via (x << 5) as i16 >> 5, from
gp0_drawing_offset. -/
def signed11 (x : Nat) : Int :=
  (toI16 ((x <<< 5) % 65536)) / 32

/-- Gpu::gp0_drawing_offset. -/
def Gpu.gp0_drawing_offset (g : Gpu) : Gpu :=
  let val := g.gp0_command.val1
  let x := val &&& 0x7FF
  let y := (val >>> 11) &&& 0x7FF
  { g with renderer := g.renderer.set_draw_offset (signed11 x) (signed11 y) }

/-- Gpu::gp0_mask_bit_setting. -/
def Gpu.gp0_mask_bit_setting (g : Gpu) : Gpu :=
  let val := g.gp0_command.val1
  { g with
    force_set_mask_bit := val &&& 1 ≠ 0,
    preserve_masked_pixels := val &&& 2 ≠ 0 }

/-- Dispatch a reified gp0_command_method tag. -/
def Gpu.runGp0Method (g : Gpu) : Gp0Method → Option Gpu
  | .nop => some g.gp0_nop
  | .clear_cache => some g.gp0_clear_cache
  | .quad_mono_opaq => some g.gp0_quad_mono_opaq
  | .quad_texture_blend_opaq => some g.gp0_quad_texture_blend_opaq
  | .triangle_shaded_opaq => some g.gp0_triangle_shaded_opaq
  | .quad_shaded_opaq => some g.gp0_quad_shaded_opaq
  | .image_load => some g.gp0_image_load
  | .image_store => some g.gp0_image_store
  | .draw_mode => g.gp0_draw_mode
  | .texture_window => some g.gp0_texture_window
  | .drawing_area_top_left => some g.gp0_drawing_area_top_left
  | .drawing_area_bottom_right => some g.gp0_drawing_area_bottom_right
  | .drawing_offset => some g.gp0_drawing_offset
  | .mask_bit_setting => some g.gp0_mask_bit_setting

/-- The (length, handler) table of Gpu::gp0; unknown opcodes panic. -/
def gp0Table : Nat → Option (Nat × Gp0Method)
  | 0x00 => some (1, .nop)
  | 0x01 => some (1, .clear_cache)
  | 0x28 => some (5, .quad_mono_opaq)
  | 0x2C => some (9, .quad_texture_blend_opaq)
  | 0x30 => some (6, .triangle_shaded_opaq)
  | 0x38 => some (8, .quad_shaded_opaq)
  | 0xA0 => some (3, .image_load)
  | 0xC0 => some (3, .image_store)
  | 0xE1 => some (1, .draw_mode)
  | 0xE2 => some (1, .texture_window)
  | 0xE3 => some (1, .drawing_area_top_left)
  | 0xE4 => some (1, .drawing_area_bottom_right)
  | 0xE5 => some (1, .drawing_offset)
  | 0xE6 => some (1, .mask_bit_setting)
  | _ => none

/-- Gpu::gp0: buffer a word and run the handler when the command is full. -/
def Gpu.gp0 (g : Gpu) (val : Nat) : Option Gpu := do
  let g ← if g.gp0_words_remaining = 0 then do
      let opcode := (val >>> 24) &&& 0xFF
      let lm ← gp0Table opcode
      pure { g with
        gp0_words_remaining := lm.1,
        gp0_command_method := lm.2,
        gp0_command := g.gp0_command.clear }
    else pure g
  let g := { g with gp0_words_remaining := g.gp0_words_remaining - 1 }
  match g.gp0_mode with
  | .Command =>
    let g := { g with gp0_command := g.gp0_command.push_word val }
    if g.gp0_words_remaining = 0 then g.runGp0Method g.gp0_command_method
    else pure g
  | .ImageLoad =>
    if g.gp0_words_remaining = 0 then pure { g with gp0_mode := .Command }
    else pure g

/-- Gpu::gp1_reset_command_buffer. -/
def Gpu.gp1_reset_command_buffer (g : Gpu) (_ : Nat) : Gpu :=
  { g with
    gp0_command := g.gp0_command.clear,
    gp0_words_remaining := 0,
    gp0_mode := .Command }

/-- Gpu::gp1_reset. -/
def Gpu.gp1_reset (g : Gpu) (_ : Nat) : Gpu :=
  let g := { g with
    interrupt := false,
    page_base_x := 0, page_base_y := 0, semi_transparency := 0,
    texture_depth := .T4Bit,
    texture_window_x_mask := 0, texture_window_y_mask := 0,
    texture_window_x_offset := 0, texture_window_y_offset := 0,
    dithering := false, draw_to_display := false, texture_disable := false,
    rectangle_texture_x_flip := false, rectangle_texture_y_flip := false,
    drawing_area_left := 0, drawing_area_top := 0, drawing_area_right := 0,
    drawing_area_bottom := 0, force_set_mask_bit := false,
    preserve_masked_pixels := false, dma_direction := .Off,
    display_disabled := true, display_vram_x_start := 0,
    display_vram_y_start := 0, hres := HorizontalRes.from_fields 0 0,
    vres := .Y240Lines, vmode := .Ntsc, interlaced := true,
    display_horiz_start := 0x200, display_horiz_end := 0xC00,
    display_line_start := 0x010, display_line_end := 0x100,
    display_depth := .D15Bits }
  let g := { g with renderer := g.renderer.set_draw_offset 0 0 }
  g.gp1_reset_command_buffer 0

/-- Gpu::gp1_acknowledge_irq. -/
def Gpu.gp1_acknowledge_irq (g : Gpu) (_ : Nat) : Gpu :=
  { g with interrupt := false }

/-- Gpu::gp1_display_enable. -/
def Gpu.gp1_display_enable (g : Gpu) (val : Nat) : Gpu :=
  { g with display_disabled := val &&& 1 ≠ 0 }

/-- Gpu::gp1_dma_direction. -/
def Gpu.gp1_dma_direction (g : Gpu) (val : Nat) : Gpu :=
  let d := match val &&& 3 with
    | 0 => DmaDirection.Off
    | 1 => DmaDirection.Fifo
    | 2 => DmaDirection.CpuToGp0
    | _ => DmaDirection.VramToCpu
  { g with dma_direction := d }

/-- Gpu::gp1_display_vram_start. -/
def Gpu.gp1_display_vram_start (g : Gpu) (val : Nat) : Gpu :=
  { g with
    display_vram_x_start := val &&& 0x3FE,
    display_vram_y_start := (val >>> 10) &&& 0x1FF }

/-- Gpu::gp1_display_horizontal_range. -/
def Gpu.gp1_display_horizontal_range (g : Gpu) (val : Nat) : Gpu :=
  { g with
    display_horiz_start := val &&& 0xFFF,
    display_horiz_end := (val >>> 12) &&& 0xFFF }

/-- Gpu::gp1_display_vertical_range. -/
def Gpu.gp1_display_vertical_range (g : Gpu) (val : Nat) : Gpu :=
  { g with
    display_line_start := val &&& 0x3FF,
    display_line_end := (val >>> 10) &&& 0x3FF }

/-- Gpu::gp1_display_mode; an unsupported mode (bit 7) panics in the source. -/
def Gpu.gp1_display_mode (g : Gpu) (val : Nat) : Option Gpu :=
  let hr1 := val &&& 3
  let hr2 := (val >>> 6) &&& 1
  let g := { g with
    hres := HorizontalRes.from_fields hr1 hr2,
    vres := if val &&& 0x4 ≠ 0 then VerticalRes.Y480Lines else VerticalRes.Y240Lines,
    vmode := if val &&& 0x8 ≠ 0 then VMode.Pal else VMode.Ntsc,
    display_depth := if val &&& 0x10 ≠ 0 then DisplayDepth.D15Bits else DisplayDepth.D24Bits,
    interlaced := val &&& 0x20 ≠ 0 }
  if val &&& 0x80 ≠ 0 then none else some g

/-- Gpu::gp1: immediate control port; unknown opcodes panic. -/
def Gpu.gp1 (g : Gpu) (val : Nat) : Option Gpu :=
  let opcode := (val >>> 24) &&& 0xFF
  match opcode with
  | 0x00 => some (g.gp1_reset val)
  | 0x01 => some (g.gp1_reset_command_buffer val)
  | 0x02 => some (g.gp1_acknowledge_irq val)
  | 0x03 => some (g.gp1_display_enable val)
  | 0x04 => some (g.gp1_dma_direction val)
  | 0x05 => some (g.gp1_display_vram_start val)
  | 0x06 => some (g.gp1_display_horizontal_range val)
  | 0x07 => some (g.gp1_display_vertical_range val)
  | 0x08 => g.gp1_display_mode val
  | _ => none

/-! ## src/interrupts.rs -/

/-- The interrupt aggregator (src/interrupts.rs struct Interrupts). -/
structure Interrupts where
  stat : Nat
  mask : Nat
  prev_pulse : Nat

/-- Interrupts::new. -/
def Interrupts.new : Interrupts := ⟨0, 0, 0⟩

/-- Interrupts::tick (a no-op in the source). -/
def Interrupts.tick (i : Interrupts) : Interrupts := i

/-- Interrupts::check. -/
def Interrupts.check (i : Interrupts) : Bool := i.stat &&& i.mask ≠ 0

/-- Interrupts::ack. -/
def Interrupts.ack (i : Interrupts) (val : Nat) : Interrupts :=
  { i with stat := i.stat &&& val }

/-- Interrupts::set: edge-triggered raise of one line. -/
def Interrupts.set (i : Interrupts) (line : Nat) (val : Bool) : Interrupts :=
  let mask := 1 <<< line
  let i := if val && (i.prev_pulse &&& mask = 0)
    then { i with stat := i.stat ||| mask } else i
  let i := { i with prev_pulse := i.prev_pulse &&& (mask ^^^ 0xFFFFFFFF) }
  if val then { i with prev_pulse := i.prev_pulse ||| mask } else i

/-! ## src/interconnect.rs -/

/-- Rust (addr as i32).wrapping_add(increment) as u32, for a signed DMA step. -/
def wadd32i (addr : Nat) (inc : Int) : Nat := u32ofInt ((addr : Int) + inc)

/-- The bus (src/interconnect.rs struct Interconnect).

The fields bios, scratchpad, ram, dma and gpu are the source struct's fields.
Cpu::step also calls self.inter.tick() and reads self.inter.interrupts, which
src/interconnect.rs does not declare; the interrupts field (the aggregator of
src/interrupts.rs) and the ticks quantum counter are modelled from the spec
(sections 2 and 4.3: each step advances every device one quantum and samples
the interrupt aggregator). -/
structure Interconnect where
  bios : Bios
  scratchpad : ScratchPad
  ram : Ram
  dma : Dma
  gpu : Gpu
  interrupts : Interrupts
  ticks : Nat

/-- Interconnect::new. -/
def Interconnect.new (bios : Bios) (gpu : Gpu) : Interconnect :=
  { bios := bios, scratchpad := ScratchPad.new, ram := Ram.new,
    dma := Dma.new, gpu := gpu, interrupts := Interrupts.new, ticks := 0 }

/-- Modelled from the spec: Interconnect::tick is called by Cpu::step but is
missing from src/interconnect.rs.  Per spec section 4.3 step 1 it advances
every device by one quantum and updates the interrupt aggregator; of the
devices owned by this bus only the aggregator has a tick in src (a no-op),
and the ticks counter records the quantum. -/
def Interconnect.tick (ic : Interconnect) : Interconnect :=
  { ic with interrupts := ic.interrupts.tick, ticks := ic.ticks + 1 }

/-- Interconnect::dma_reg: read a DMA register; unhandled offsets panic. -/
def Interconnect.dma_reg (ic : Interconnect) (offset : Nat) : Option Nat :=
  let major := (offset &&& 0x70) >>> 4
  let minor := offset &&& 0x0F
  if major ≤ 6 then do
    let port ← Port.from_index major
    let channel := ic.dma.channel port
    match minor with
    | 8 => some channel.control
    | _ => none
  else if major = 7 then
    match minor with
    | 0 => some ic.dma.control
    | 4 => some ic.dma.interrupt
    | _ => none
  else none

/-- The tail of Interconnect::load32 after the MEM_CONTROL arm: when the
matched MEM_CONTROL offset is neither 0 nor 4 the source only warns and falls
through to the remaining region checks, so they are factored out here. -/
def Interconnect.load32_tail (ic : Interconnect) (addr : Nat) : Option Nat :=
  match (map.RAM_SIZE.contains addr : Option Nat) with
  | some _ => some 0
  | none =>
  match (map.CACHE_SIZE.contains addr : Option Nat) with
  | some _ => some 0
  | none =>
  match (map.IRQ_CONTROL.contains addr : Option Nat) with
  | some _ => some 0
  | none =>
  match (map.DMA.contains addr : Option Nat) with
  | some offset => ic.dma_reg offset
  | none =>
  match (map.GPU.contains addr : Option Nat) with
  | some offset =>
    some (match offset with
      | 0 => ic.gpu.read
      | 4 => ic.gpu.status
      | _ => 0)
  | none =>
  match (map.CDROM.contains addr : Option Nat) with
  | some _ => some 0
  | none =>
  match (map.TIMERS.contains addr : Option Nat) with
  | some _ => some 0
  | none =>
  match (map.JOYPAD.contains addr : Option Nat) with
  | some _ => some 0
  | none =>
  match (map.SIO.contains addr : Option Nat) with
  | some _ => some 0
  | none =>
  match (map.EXPANSION_3.contains addr : Option Nat) with
  | some _ => some 0
  | none => some 0

/-- Interconnect::load32; an unaligned address panics. -/
def Interconnect.load32 (ic : Interconnect) (abs_addr : Nat) : Option Nat :=
  if abs_addr % 4 ≠ 0 then none else
  let addr := map.mask_region abs_addr
  match (map.EXPANSION_1.contains addr : Option Nat) with
  | some _ => some 0
  | none =>
  match (map.RAM.contains addr : Option Nat) with
  | some offset => some (ic.ram.load32 offset)
  | none =>
  match (map.SCRATCHPAD.contains addr : Option Nat) with
  | some offset => some (ic.scratchpad.load32 offset)
  | none =>
  match (map.BIOS.contains addr : Option Nat) with
  | some offset => some (ic.bios.load32 offset)
  | none =>
  match (map.MEM_CONTROL.contains addr : Option Nat) with
  | some offset =>
    match offset with
    | 0 => some 0x1f000000
    | 4 => some 0x1f800200
    | _ => ic.load32_tail addr
  | none => ic.load32_tail addr

/-- Interconnect::load16; an unaligned address panics. -/
def Interconnect.load16 (ic : Interconnect) (abs_addr : Nat) : Option Nat :=
  if abs_addr % 2 ≠ 0 then none else
  let addr := map.mask_region abs_addr
  match (map.RAM.contains addr : Option Nat) with
  | some offset => some (ic.ram.load16 offset)
  | none =>
  match (map.SCRATCHPAD.contains addr : Option Nat) with
  | some offset => some (ic.scratchpad.load16 offset)
  | none =>
  match (map.SPU.contains addr : Option Nat) with
  | some _ => some 0
  | none =>
  match (map.IRQ_CONTROL.contains addr : Option Nat) with
  | some _ => some 0
  | none =>
  match (map.JOYPAD.contains addr : Option Nat) with
  | some _ => some 0
  | none =>
  match (map.SIO.contains addr : Option Nat) with
  | some _ => some 0
  | none =>
  match (map.TIMERS.contains addr : Option Nat) with
  | some _ => some 0
  | none => some 0

/-- Interconnect::load8. -/
def Interconnect.load8 (ic : Interconnect) (abs_addr : Nat) : Option Nat :=
  let addr := map.mask_region abs_addr
  match (map.RAM.contains addr : Option Nat) with
  | some offset => some (ic.ram.load8 offset)
  | none =>
  match (map.SCRATCHPAD.contains addr : Option Nat) with
  | some offset => some (ic.scratchpad.load8 offset)
  | none =>
  match (map.BIOS.contains addr : Option Nat) with
  | some offset => some (ic.bios.load8 offset)
  | none =>
  match (map.CDROM.contains addr : Option Nat) with
  | some _ => some 0
  | none =>
  match (map.EXPANSION_1.contains addr : Option Nat) with
  | some _ => some 0xFF
  | none =>
  match (map.JOYPAD.contains addr : Option Nat) with
  | some _ => some 0
  | none =>
  match (map.SIO.contains addr : Option Nat) with
  | some _ => some 0
  | none =>
  match (map.EXPANSION_2.contains addr : Option Nat) with
  | some _ => some 0
  | none => some 0

/-- The while loop of Interconnect::do_dma_block, recursing on the remaining
word count.  In the 0xFFFFFF arm the source tests remsz == 1, which is
remsz0 = 0 for the current count remsz0 + 1. -/
def Interconnect.dmaBlockLoop (port : Port) (dir : Direction) (increment : Int) :
    Nat → Nat → Interconnect → Option Interconnect
  | _, 0, ic => some ic
  | addr, remsz0 + 1, ic => do
    let cur_addr := addr &&& 0x1FFFFC
    let ic ← match dir with
      | .FromRam => do
        let src_word := ic.ram.load32 cur_addr
        match port with
        | .Gpu => do
          let gpu ← ic.gpu.gp0 src_word
          pure { ic with gpu := gpu }
        | _ => none
      | .ToRam => do
        let src_word ← match port with
          | .Otc =>
            if remsz0 = 0 then some 0xFFFFFF
            else some (wsub32 addr 4 &&& 0x1FFFFF)
          | _ => none
        pure { ic with ram := ic.ram.store32 cur_addr src_word }
    Interconnect.dmaBlockLoop port dir increment (wadd32i addr increment) remsz0 ic

/-- Interconnect::do_dma_block. -/
def Interconnect.do_dma_block (ic : Interconnect) (port : Port) : Option Interconnect := do
  let channel := ic.dma.channel port
  let increment : Int := match channel.step with
    | .Increment => 4
    | .Decrement => -4
  let addr := channel.base
  let remsz ← channel.transfer_size
  let ic ← Interconnect.dmaBlockLoop port channel.direction increment addr remsz ic
  pure { ic with dma := ic.dma.set_channel port channel.done }

/-- The inner while loop of Interconnect::do_dma_linked_list: push the packet
words to GP0. -/
def Interconnect.dmaLinkedListWords :
    Nat → Nat → Interconnect → Option (Interconnect × Nat)
  | 0, addr, ic => some (ic, addr)
  | remsz0 + 1, addr, ic => do
    let addr := (addr + 4) &&& 0x1FFFFC
    let command := ic.ram.load32 addr
    let gpu ← ic.gpu.gp0 command
    Interconnect.dmaLinkedListWords remsz0 addr { ic with gpu := gpu }

/-- The outer loop of Interconnect::do_dma_linked_list.  The source loops
until an end-of-list header; on a cyclic list it never terminates, so the
embedding carries fuel (2^27 exceeds any acyclic traversal of the 2 MiB RAM)
and returns none when it runs out. -/
def Interconnect.dmaLinkedListLoop :
    Nat → Nat → Interconnect → Option Interconnect
  | 0, _, _ => none
  | fuel + 1, addr, ic => do
    let header := ic.ram.load32 addr
    let out ← Interconnect.dmaLinkedListWords (header >>> 24) addr ic
    let ic := out.1
    if header &&& 0x800000 ≠ 0 then pure ic
    else Interconnect.dmaLinkedListLoop fuel (header &&& 0x1FFFFC) ic

/-- Interconnect::do_dma_linked_list; invalid direction or port panics. -/
def Interconnect.do_dma_linked_list (ic : Interconnect) (port : Port) :
    Option Interconnect := do
  let channel := ic.dma.channel port
  let addr := channel.base &&& 0x1FFFFC
  if channel.direction = Direction.ToRam then none
  else if port ≠ Port.Gpu then none
  else do
    let ic ← Interconnect.dmaLinkedListLoop 134217728 addr ic
    pure { ic with dma := ic.dma.set_channel port channel.done }

/-- Interconnect::do_dma: dispatch on the channel sync mode. -/
def Interconnect.do_dma (ic : Interconnect) (port : Port) : Option Interconnect :=
  match (ic.dma.channel port).sync with
  | .LinkedList => ic.do_dma_linked_list port
  | _ => ic.do_dma_block port

/-- Interconnect::set_dma_reg: write a DMA register and run any newly
activated channel; unhandled offsets and bad sync modes panic. -/
def Interconnect.set_dma_reg (ic : Interconnect) (offset val : Nat) :
    Option Interconnect := do
  let major := (offset &&& 0x70) >>> 4
  let minor := offset &&& 0x0F
  if major ≤ 6 then do
    let port ← Port.from_index major
    let channel := ic.dma.channel port
    let channel ← match minor with
      | 0 => some (channel.set_base val)
      | 4 => some (channel.set_block_control val)
      | 8 => channel.set_control val
      | _ => none
    let ic := { ic with dma := ic.dma.set_channel port channel }
    if channel.active then ic.do_dma port else pure ic
  else if major = 7 then
    match minor with
    | 0 => some { ic with dma := ic.dma.set_control val }
    | 4 => some { ic with dma := ic.dma.set_interrupt val }
    | _ => none
  else none

/-- Interconnect::store32; unaligned addresses, BIOS writes, bad MemControl
magics and several device paths panic. -/
def Interconnect.store32 (ic : Interconnect) (abs_addr val : Nat) :
    Option Interconnect :=
  if abs_addr % 4 ≠ 0 then none else
  let addr := map.mask_region abs_addr
  match (map.RAM.contains addr : Option Nat) with
  | some offset => some { ic with ram := ic.ram.store32 offset val }
  | none =>
  match (map.SCRATCHPAD.contains addr : Option Nat) with
  | some offset => some { ic with scratchpad := ic.scratchpad.store32 offset val }
  | none =>
  match (map.BIOS.contains addr : Option Nat) with
  | some _ => none
  | none =>
  match (map.MEM_CONTROL.contains addr : Option Nat) with
  | some offset =>
    match offset with
    | 0 => if val ≠ 0x1f000000 then none else some ic
    | 4 => if val ≠ 0x1f802000 then none else some ic
    | _ => some ic
  | none =>
  match (map.RAM_SIZE.contains addr : Option Nat) with
  | some _ => some ic
  | none =>
  match (map.CACHE_SIZE.contains addr : Option Nat) with
  | some _ => some ic
  | none =>
  match (map.IRQ_CONTROL.contains addr : Option Nat) with
  | some _ => some ic
  | none =>
  match (map.DMA.contains addr : Option Nat) with
  | some offset => ic.set_dma_reg offset val
  | none =>
  match (map.GPU.contains addr : Option Nat) with
  | some offset =>
    (match offset with
      | 0 => do
        let gpu ← ic.gpu.gp0 val
        pure { ic with gpu := gpu }
      | 4 => do
        let gpu ← ic.gpu.gp1 val
        pure { ic with gpu := gpu }
      | _ => none)
  | none =>
  match (map.CDROM.contains addr : Option Nat) with
  | some _ => some ic
  | none =>
  match (map.SPU.contains addr : Option Nat) with
  | some _ => some ic
  | none =>
  match (map.JOYPAD.contains addr : Option Nat) with
  | some _ => some ic
  | none =>
  match (map.SIO.contains addr : Option Nat) with
  | some _ => some ic
  | none =>
  match (map.TIMERS.contains addr : Option Nat) with
  | some _ => some ic
  | none => some ic

/-- Interconnect::store16; an unaligned address panics. -/
def Interconnect.store16 (ic : Interconnect) (abs_addr val : Nat) :
    Option Interconnect :=
  if abs_addr % 2 ≠ 0 then none else
  let addr := map.mask_region abs_addr
  match (map.RAM.contains addr : Option Nat) with
  | some offset => some { ic with ram := ic.ram.store16 offset val }
  | none =>
  match (map.SCRATCHPAD.contains addr : Option Nat) with
  | some offset => some { ic with scratchpad := ic.scratchpad.store16 offset val }
  | none =>
  match (map.IRQ_CONTROL.contains addr : Option Nat) with
  | some _ => some ic
  | none =>
  match (map.SPU.contains addr : Option Nat) with
  | some _ => some ic
  | none =>
  match (map.JOYPAD.contains addr : Option Nat) with
  | some _ => some ic
  | none =>
  match (map.SIO.contains addr : Option Nat) with
  | some _ => some ic
  | none =>
  match (map.TIMERS.contains addr : Option Nat) with
  | some _ => some ic
  | none => some ic

/-- Interconnect::store8. -/
def Interconnect.store8 (ic : Interconnect) (abs_addr val : Nat) :
    Option Interconnect :=
  let addr := map.mask_region abs_addr
  match (map.RAM.contains addr : Option Nat) with
  | some offset => some { ic with ram := ic.ram.store8 offset val }
  | none =>
  match (map.SCRATCHPAD.contains addr : Option Nat) with
  | some offset => some { ic with scratchpad := ic.scratchpad.store8 offset val }
  | none =>
  match (map.CDROM.contains addr : Option Nat) with
  | some _ => some ic
  | none =>
  match (map.EXPANSION_1.contains addr : Option Nat) with
  | some _ => some ic
  | none =>
  match (map.EXPANSION_2.contains addr : Option Nat) with
  | some _ => some ic
  | none =>
  match (map.JOYPAD.contains addr : Option Nat) with
  | some _ => some ic
  | none =>
  match (map.SIO.contains addr : Option Nat) with
  | some _ => some ic
  | none => some ic

/-! ## src/gte.rs (partial)

The GTE command interpreter in the source panics on every command, so only
the data registers reachable through MFC2/MTC2/CFC2/CTC2 are embedded.  The
remaining fields of struct Gte (vectors, matrices, fifos, flags) are
initialized by Gte::new and never read or written by any reachable
operation; they are omitted here. -/

structure Gte where
  mac0 : Int
  mac1 : Int
  mac2 : Int
  mac3 : Int
  irgb : Nat
  orgb : Nat
  lzcs : Int
  lzcr : Int

/-- Gte::new (registers zeroed). -/
def Gte.new : Gte := ⟨0, 0, 0, 0, 0, 0, 0, 0⟩

/-- Gte::load_data; unhandled offsets panic. -/
def Gte.load_data (g : Gte) (offset : Nat) : Option Nat :=
  match offset with
  | 24 => some (u32ofInt g.mac0)
  | 25 => some (u32ofInt g.mac1)
  | 26 => some (u32ofInt g.mac2)
  | 27 => some (u32ofInt g.mac3)
  | 28 => some g.irgb
  | 29 => some g.orgb
  | 30 => some (u32ofInt g.lzcs)
  | 31 => some (u32ofInt g.lzcr)
  | _ => none

/-- Gte::store_data; unhandled offsets panic. -/
def Gte.store_data (g : Gte) (offset val : Nat) : Option Gte :=
  match offset with
  | 24 => some { g with mac0 := toI32 val }
  | 25 => some { g with mac1 := toI32 val }
  | 26 => some { g with mac2 := toI32 val }
  | 27 => some { g with mac3 := toI32 val }
  | 28 => some { g with irgb := val % 65536 }
  | 29 => some { g with orgb := val % 65536 }
  | 30 => some { g with lzcs := toI32 val }
  | 31 => some { g with lzcr := toI32 val }
  | _ => none

/-- Gte::load_control (warns and returns 0). -/
def Gte.load_control (_ : Gte) (_ : Nat) : Nat := 0

/-- Gte::store_control (a no-op in the source). -/
def Gte.store_control (g : Gte) (_ _ : Nat) : Gte := g

/-- Gte::command; every command panics in the source. -/
def Gte.command (_ : Gte) (_ : Nat) : Option Gte := none

/-! ## src/cpu/instruction.rs -/

/-- Register index (Rust RegisterIndex(pub u32)). -/
abbrev RegisterIndex := Nat

/-- Instruction(pub u32). -/
structure Instruction where
  op : Nat

/-- Instruction::function. -/
def Instruction.function (i : Instruction) : Nat := i.op >>> 26

/-- Instruction::s. -/
def Instruction.s (i : Instruction) : RegisterIndex := (i.op >>> 21) &&& 0x1F

/-- Instruction::t. -/
def Instruction.t (i : Instruction) : RegisterIndex := (i.op >>> 16) &&& 0x1F

/-- Instruction::d. -/
def Instruction.d (i : Instruction) : RegisterIndex := (i.op >>> 11) &&& 0x1F

/-- Instruction::subfunction. -/
def Instruction.subfunction (i : Instruction) : Nat := i.op &&& 0x3F

/-- Instruction::shift. -/
def Instruction.shift (i : Instruction) : Nat := (i.op >>> 6) &&& 0x1F

/-- Instruction::imm. -/
def Instruction.imm (i : Instruction) : Nat := i.op &&& 0xFFFF

/-- Instruction::imm_se (as i16 as u32). -/
def Instruction.imm_se (i : Instruction) : Nat := sext16 (i.op &&& 0xFFFF)

/-- Instruction::imm_jump. -/
def Instruction.imm_jump (i : Instruction) : Nat := i.op &&& 0x3FFFFFF

/-- Instruction::cop_opcode. -/
def Instruction.cop_opcode (i : Instruction) : Nat := i.s

/-- Modelled from the spec: Instruction::imm_cop is called by Cpu::op_cop2
but missing from src/cpu/instruction.rs; a GTE command immediate is the low
25 bits of the word.  Its value only feeds Gte::command, which panics. -/
def Instruction.imm_cop (i : Instruction) : Nat := i.op &&& 0x1FFFFFF

/-! ## src/cpu/cpu.rs -/

inductive Event where
  | DoneStep
  | Halted
  | Break
  | WatchWrite (addr : Nat)
  | WatchRead (addr : Nat)
deriving DecidableEq

inductive ExecMode where
  | Continue
  | Step
  | RangeStep (start stop : Nat)

inductive Exc where
  | Irq
  | LoadAddressError
  | StoreAddressError
  | SysCall
  | Overflow
  | Break
  | CoprocessorError
  | IllegalInstruction
deriving DecidableEq

/-- Exception discriminants (enum Exception of src/cpu/cpu.rs; named Exc in
the embedding to avoid shadowing library names). -/
def Exc.code : Exc → Nat
  | .Irq => 0x0
  | .LoadAddressError => 0x4
  | .StoreAddressError => 0x5
  | .SysCall => 0x8
  | .Overflow => 0xC
  | .Break => 0x9
  | .CoprocessorError => 0xB
  | .IllegalInstruction => 0xA

/-- CPU state (src/cpu/cpu.rs struct Cpu); the register files are maps from
register index. -/
structure Cpu where
  pc : Nat
  next_pc : Nat
  regs : Nat → Nat
  out_regs : Nat → Nat
  inter : Interconnect
  load : RegisterIndex × Nat
  branch : Bool
  delay_slot : Bool
  stalls : Nat
  hi : Nat
  lo : Nat
  current_pc : Nat
  sr : Nat
  cause : Nat
  epc : Nat
  gte : Gte
  exec_mode : ExecMode
  breakpoints : List Nat
  watchpoints : List Nat
  event : Option Event
  tty_buffer : List Nat

/-- Cpu::new: reset state. -/
def Cpu.new (inter : Interconnect) : Cpu :=
  { pc := 0xbfc00000,
    next_pc := wadd32 0xbfc00000 4,
    regs := fun i => if i = 0 then 0 else 0xDEADBEEF,
    out_regs := fun i => if i = 0 then 0 else 0xDEADBEEF,
    inter := inter,
    load := (0, 0),
    sr := 0,
    hi := 0xDEADBEEF,
    lo := 0xDEADBEEF,
    current_pc := 0,
    cause := 0,
    epc := 0,
    branch := false,
    delay_slot := false,
    gte := Gte.new,
    exec_mode := .Continue,
    breakpoints := [],
    watchpoints := [],
    event := none,
    tty_buffer := [],
    stalls := 0 }

/-- Cpu::reg. -/
def Cpu.reg (c : Cpu) (index : RegisterIndex) : Nat := c.regs index

/-- Cpu::set_reg: write the out-register snapshot, then force register 0 to
zero. -/
def Cpu.set_reg (c : Cpu) (index : RegisterIndex) (val : Nat) : Cpu :=
  { c with out_regs := Function.update (Function.update c.out_regs index val) 0 0 }

/-- Cpu::set_cause (MTC0 to CAUSE touches only bits 8-9). -/
def Cpu.set_cause (c : Cpu) (val : Nat) : Cpu :=
  { c with cause := (c.cause &&& 0xFFFFFCFF) ||| (val &&& 0x300) }

/-- Cpu::branch (the branch method; the apostrophe avoids the clash with the
branch field). -/
def Cpu.branch' (c : Cpu) (offset : Nat) : Cpu :=
  let offset := shl32 offset 2
  { c with next_pc := wadd32 c.pc offset, branch := true }

/-- Cpu::check_irq. -/
def Cpu.check_irq (c : Cpu) : Bool :=
  c.sr &&& 1 ≠ 0 && c.inter.interrupts.check

/-- Cpu::exception: enter the exception handler.  Note the source first
clears CAUSE bits 6:2 (cause &= !0x7C) and then overwrites the whole CAUSE
register with code << 2 on the next line; both statements are reproduced. -/
def Cpu.exception (c : Cpu) (cause : Exc) : Cpu :=
  let handler : Nat := if c.sr &&& (1 <<< 22) ≠ 0 then 0xbfc00180 else 0x80000080
  let mode := c.sr &&& 0x3F
  let c := { c with sr := (c.sr &&& 0xFFFFFFC0) ||| ((mode <<< 2) &&& 0x3F) }
  let c := { c with cause := c.cause &&& 0xFFFFFF83 }
  let c := { c with cause := cause.code <<< 2 }
  let c := { c with epc := c.current_pc }
  let c := if c.delay_slot then
      { c with epc := wsub32 c.epc 4, cause := c.cause ||| (1 <<< 31) }
    else c
  { c with pc := handler, next_pc := wadd32 handler 4 }

/-- Cpu::load::<u32>: watchpoint check, two stall cycles, then the bus. -/
def Cpu.load32 (c : Cpu) (addr : Nat) : Option (Nat × Cpu) :=
  let c := if c.watchpoints.contains addr
    then { c with event := some (.WatchRead addr) } else c
  let c := { c with stalls := c.stalls + 2 }
  match c.inter.load32 addr with
  | some v => some (v, c)
  | none => none

/-- Cpu::load::<u16>. -/
def Cpu.load16 (c : Cpu) (addr : Nat) : Option (Nat × Cpu) :=
  let c := if c.watchpoints.contains addr
    then { c with event := some (.WatchRead addr) } else c
  let c := { c with stalls := c.stalls + 2 }
  match c.inter.load16 addr with
  | some v => some (v, c)
  | none => none

/-- Cpu::load::<u8>. -/
def Cpu.load8 (c : Cpu) (addr : Nat) : Option (Nat × Cpu) :=
  let c := if c.watchpoints.contains addr
    then { c with event := some (.WatchRead addr) } else c
  let c := { c with stalls := c.stalls + 2 }
  match c.inter.load8 addr with
  | some v => some (v, c)
  | none => none

/-- Cpu::store::<u32>: watchpoint check, then drop the store entirely while
the cache is isolated (SR bit 16), else the bus. -/
def Cpu.store32 (c : Cpu) (addr val : Nat) : Option Cpu :=
  let c := if c.watchpoints.contains addr
    then { c with event := some (.WatchWrite addr) } else c
  if c.sr &&& 0x10000 ≠ 0 then some c
  else match c.inter.store32 addr val with
    | some ic => some { c with inter := ic }
    | none => none

/-- Cpu::store::<u16>. -/
def Cpu.store16 (c : Cpu) (addr val : Nat) : Option Cpu :=
  let c := if c.watchpoints.contains addr
    then { c with event := some (.WatchWrite addr) } else c
  if c.sr &&& 0x10000 ≠ 0 then some c
  else match c.inter.store16 addr val with
    | some ic => some { c with inter := ic }
    | none => none

/-- Cpu::store::<u8>. -/
def Cpu.store8 (c : Cpu) (addr val : Nat) : Option Cpu :=
  let c := if c.watchpoints.contains addr
    then { c with event := some (.WatchWrite addr) } else c
  if c.sr &&& 0x10000 ≠ 0 then some c
  else match c.inter.store8 addr val with
    | some ic => some { c with inter := ic }
    | none => none

/-- Cpu::debug_bios_func.  Every arm only formats log output (evaluated
lazily by the log macros, so with logging disabled it has no effect) except
the BIOS B std_out_putchar arm, which feeds the tty buffer. -/
def Cpu.debug_bios_func (c : Cpu) : Cpu :=
  if c.current_pc = 0x000000B0 ∧ c.regs 9 = 0x3D then
    let ch := c.regs 4 % 256
    if ch = 0x0A then { c with tty_buffer := [] }
    else { c with tty_buffer := c.tty_buffer ++ [ch] }
  else c

/-- Arithmetic shift right of a u32 reinterpreted as i32 (Rust i32 >>), as a
u32 bit pattern. -/
def asr32 (v i : Nat) : Nat := u32ofInt (Int.fdiv (toI32 v) ((2 : Int) ^ i))

/-- Cpu::op_lui. -/
def Cpu.op_lui (c : Cpu) (i : Instruction) : Cpu :=
  c.set_reg i.t (i.imm <<< 16)

/-- Cpu::op_ori. -/
def Cpu.op_ori (c : Cpu) (i : Instruction) : Cpu :=
  c.set_reg i.t (c.reg i.s ||| i.imm)

/-- Cpu::op_sll. -/
def Cpu.op_sll (c : Cpu) (i : Instruction) : Cpu :=
  c.set_reg i.d (shl32 (c.reg i.t) i.shift)

/-- Cpu::op_or. -/
def Cpu.op_or (c : Cpu) (i : Instruction) : Cpu :=
  c.set_reg i.d (c.reg i.s ||| c.reg i.t)

/-- Cpu::op_sltu. -/
def Cpu.op_sltu (c : Cpu) (i : Instruction) : Cpu :=
  c.set_reg i.d (b32 (decide (c.reg i.s < c.reg i.t)))

/-- Cpu::op_j. -/
def Cpu.op_j (c : Cpu) (i : Instruction) : Cpu :=
  { c with next_pc := (c.pc &&& 0xF0000000) ||| (i.imm_jump <<< 2),
           branch := true }

/-- Cpu::op_bne. -/
def Cpu.op_bne (c : Cpu) (i : Instruction) : Cpu :=
  if c.reg i.s ≠ c.reg i.t then c.branch' i.imm_se else c

/-- Cpu::op_beq. -/
def Cpu.op_beq (c : Cpu) (i : Instruction) : Cpu :=
  if c.reg i.s = c.reg i.t then c.branch' i.imm_se else c

/-- Cpu::op_mtc0; reserved registers written non-zero, and unknown registers,
panic. -/
def Cpu.op_mtc0 (c : Cpu) (i : Instruction) : Option Cpu :=
  let cpu_r := i.t
  let cop_r := i.d
  let v := c.reg cpu_r
  match cop_r with
  | 3 | 5 | 6 | 7 | 9 | 11 => if v ≠ 0 then none else some c
  | 12 => some { c with sr := v }
  | 13 => some (c.set_cause v)
  | 14 => some { c with epc := v }
  | _ => none

/-- Cpu::op_mfc0; unknown registers panic.  The result goes through the
pending-load slot. -/
def Cpu.op_mfc0 (c : Cpu) (i : Instruction) : Option Cpu :=
  let cpu_r := i.t
  let cop_r := i.d
  match cop_r with
  | 12 => some { c with load := (cpu_r, c.sr) }
  | 13 => some { c with load := (cpu_r, c.cause) }
  | 14 => some { c with load := (cpu_r, c.epc) }
  | 15 => some { c with load := (cpu_r, 0) }
  | _ => none

/-- Cpu::op_cfc0 (todo!() in the source). -/
def Cpu.op_cfc0 (_ : Cpu) (_ : Instruction) : Option Cpu := none

/-- Cpu::op_ctc0 (todo!() in the source). -/
def Cpu.op_ctc0 (_ : Cpu) (_ : Instruction) : Option Cpu := none

/-- Cpu::op_rfe; an instruction whose low bits are not 0b010000 panics. -/
def Cpu.op_rfe (c : Cpu) (i : Instruction) : Option Cpu :=
  if i.op &&& 0x3F ≠ 0b010000 then none
  else
    let mode := c.sr &&& 0x3F
    some { c with sr := (c.sr &&& 0xFFFFFFC0) ||| (mode >>> 2) }

/-- Cpu::op_cop0; unhandled cop0 instructions panic. -/
def Cpu.op_cop0 (c : Cpu) (i : Instruction) : Option Cpu :=
  match i.cop_opcode with
  | 0b00000 => c.op_mfc0 i
  | 0b00010 => c.op_cfc0 i
  | 0b00100 => c.op_mtc0 i
  | 0b00110 => c.op_ctc0 i
  | 0b10000 => c.op_rfe i
  | _ => none

/-- Cpu::op_cop1. -/
def Cpu.op_cop1 (c : Cpu) (_ : Instruction) : Cpu :=
  c.exception .CoprocessorError

/-- Cpu::op_mtc2. -/
def Cpu.op_mtc2 (c : Cpu) (i : Instruction) : Option Cpu := do
  let gte ← c.gte.store_data i.d (c.reg i.t)
  pure { c with gte := gte }

/-- Cpu::op_mfc2. -/
def Cpu.op_mfc2 (c : Cpu) (i : Instruction) : Option Cpu := do
  let val ← c.gte.load_data i.d
  pure (c.set_reg i.t val)

/-- Cpu::op_cfc2. -/
def Cpu.op_cfc2 (c : Cpu) (i : Instruction) : Cpu :=
  c.set_reg i.t (c.gte.load_control i.d)

/-- Cpu::op_ctc2. -/
def Cpu.op_ctc2 (c : Cpu) (i : Instruction) : Cpu :=
  { c with gte := c.gte.store_control i.d (c.reg i.t) }

/-- Cpu::op_cop2; GTE commands and unhandled opcodes panic. -/
def Cpu.op_cop2 (c : Cpu) (i : Instruction) : Option Cpu :=
  let op := i.cop_opcode
  if op &&& 0x10 > 0 then do
    let gte ← c.gte.command i.imm_cop
    pure { c with gte := gte }
  else
    match op with
    | 0b00000 => c.op_mfc2 i
    | 0b00010 => some (c.op_cfc2 i)
    | 0b00100 => c.op_mtc2 i
    | 0b00110 => some (c.op_ctc2 i)
    | _ => none

/-- Cpu::op_cop3. -/
def Cpu.op_cop3 (c : Cpu) (_ : Instruction) : Cpu :=
  c.exception .CoprocessorError

/-- Cpu::op_srl. -/
def Cpu.op_srl (c : Cpu) (i : Instruction) : Cpu :=
  c.set_reg i.d (c.reg i.t >>> i.shift)

/-- Cpu::op_sra. -/
def Cpu.op_sra (c : Cpu) (i : Instruction) : Cpu :=
  c.set_reg i.d (asr32 (c.reg i.t) i.shift)

/-- Cpu::op_sllv. -/
def Cpu.op_sllv (c : Cpu) (i : Instruction) : Cpu :=
  c.set_reg i.d (shl32 (c.reg i.t) (c.reg i.s &&& 0x1F))

/-- Cpu::op_srlv. -/
def Cpu.op_srlv (c : Cpu) (i : Instruction) : Cpu :=
  c.set_reg i.d (c.reg i.t >>> (c.reg i.s &&& 0x1F))

/-- Cpu::op_srav. -/
def Cpu.op_srav (c : Cpu) (i : Instruction) : Cpu :=
  c.set_reg i.d (asr32 (c.reg i.t) (c.reg i.s &&& 0x1F))

/-- Cpu::op_jr. -/
def Cpu.op_jr (c : Cpu) (i : Instruction) : Cpu :=
  { c with next_pc := c.reg i.s, branch := true }

/-- Cpu::op_jalr. -/
def Cpu.op_jalr (c : Cpu) (i : Instruction) : Cpu :=
  let ra := c.next_pc
  let c := c.set_reg i.d ra
  { c with next_pc := c.reg i.s, branch := true }

/-- Cpu::op_syscall. -/
def Cpu.op_syscall (c : Cpu) (_ : Instruction) : Cpu :=
  c.exception .SysCall

/-- Cpu::op_break: record the Break event and raise the Break exception. -/
def Cpu.op_break (c : Cpu) (_ : Instruction) : Cpu :=
  let c := { c with event := some Event.Break }
  c.exception .Break

/-- Cpu::op_mfhi. -/
def Cpu.op_mfhi (c : Cpu) (i : Instruction) : Cpu :=
  c.set_reg i.d c.hi

/-- Cpu::op_mflo. -/
def Cpu.op_mflo (c : Cpu) (i : Instruction) : Cpu :=
  c.set_reg i.d c.lo

/-- Cpu::op_mthi. -/
def Cpu.op_mthi (c : Cpu) (i : Instruction) : Cpu :=
  { c with hi := c.reg i.s }

/-- Cpu::op_mtlo. -/
def Cpu.op_mtlo (c : Cpu) (i : Instruction) : Cpu :=
  { c with lo := c.reg i.s }

/-- Cpu::op_mult: signed 64-bit product into HI:LO ((v >> 32) as u32 is an
arithmetic shift, hence floor division). -/
def Cpu.op_mult (c : Cpu) (i : Instruction) : Cpu :=
  let a := toI32 (c.reg i.s)
  let b := toI32 (c.reg i.t)
  let v := a * b
  { c with hi := u32ofInt (Int.fdiv v 4294967296), lo := u32ofInt v }

/-- Cpu::op_multu. -/
def Cpu.op_multu (c : Cpu) (i : Instruction) : Cpu :=
  let a := c.reg i.s
  let b := c.reg i.t
  let v := a * b
  { c with hi := (v >>> 32) % U32LIM, lo := v % U32LIM }

/-- Cpu::op_div with the MIPS divide-by-zero and INT_MIN / -1 edge cases
(Rust / and % on i32 are truncated division and remainder). -/
def Cpu.op_div (c : Cpu) (i : Instruction) : Cpu :=
  let n := toI32 (c.reg i.s)
  let d := toI32 (c.reg i.t)
  if d = 0 then
    let c := { c with hi := u32ofInt n }
    if n ≥ 0 then { c with lo := 0xFFFFFFFF } else { c with lo := 1 }
  else if c.reg i.s % U32LIM = 0x80000000 ∧ d = -1 then
    { c with hi := 0, lo := 0x80000000 }
  else
    { c with hi := u32ofInt (Int.tmod n d), lo := u32ofInt (Int.tdiv n d) }

/-- Cpu::op_divu. -/
def Cpu.op_divu (c : Cpu) (i : Instruction) : Cpu :=
  let n := c.reg i.s
  let d := c.reg i.t
  if d = 0 then
    { c with hi := n, lo := 0xFFFFFFFF }
  else
    { c with hi := n % d, lo := n / d }

/-- Cpu::op_add: checked signed addition, Overflow exception on overflow. -/
def Cpu.op_add (c : Cpu) (i : Instruction) : Cpu :=
  let s := toI32 (c.reg i.s)
  let t := toI32 (c.reg i.t)
  let v := s + t
  if -2147483648 ≤ v ∧ v < 2147483648 then c.set_reg i.d (u32ofInt v)
  else c.exception .Overflow

/-- Cpu::op_addu. -/
def Cpu.op_addu (c : Cpu) (i : Instruction) : Cpu :=
  c.set_reg i.d (wadd32 (c.reg i.s) (c.reg i.t))

/-- Cpu::op_addiu. -/
def Cpu.op_addiu (c : Cpu) (i : Instruction) : Cpu :=
  c.set_reg i.t (wadd32 (c.reg i.s) i.imm_se)

/-- Cpu::op_addi: checked signed addition of the sign-extended immediate. -/
def Cpu.op_addi (c : Cpu) (i : Instruction) : Cpu :=
  let imm := toI32 i.imm_se
  let s := toI32 (c.reg i.s)
  let v := s + imm
  if -2147483648 ≤ v ∧ v < 2147483648 then c.set_reg i.t (u32ofInt v)
  else c.exception .Overflow

/-- Cpu::op_sub: checked signed subtraction. -/
def Cpu.op_sub (c : Cpu) (i : Instruction) : Cpu :=
  let s := toI32 (c.reg i.s)
  let t := toI32 (c.reg i.t)
  let v := s - t
  if -2147483648 ≤ v ∧ v < 2147483648 then c.set_reg i.d (u32ofInt v)
  else c.exception .Overflow

/-- Cpu::op_subu. -/
def Cpu.op_subu (c : Cpu) (i : Instruction) : Cpu :=
  c.set_reg i.d (wsub32 (c.reg i.s) (c.reg i.t))

/-- Cpu::op_and. -/
def Cpu.op_and (c : Cpu) (i : Instruction) : Cpu :=
  c.set_reg i.d (c.reg i.s &&& c.reg i.t)

/-- Cpu::op_xor. -/
def Cpu.op_xor (c : Cpu) (i : Instruction) : Cpu :=
  c.set_reg i.d (c.reg i.s ^^^ c.reg i.t)

/-- Cpu::op_nor (bitwise not on u32 is xor with all ones). -/
def Cpu.op_nor (c : Cpu) (i : Instruction) : Cpu :=
  c.set_reg i.d ((c.reg i.s ||| c.reg i.t) ^^^ 0xFFFFFFFF)

/-- Cpu::op_slt. -/
def Cpu.op_slt (c : Cpu) (i : Instruction) : Cpu :=
  c.set_reg i.d (b32 (decide (toI32 (c.reg i.s) < toI32 (c.reg i.t))))

/-- Cpu::op_bxx (BLTZ/BGEZ/BLTZAL/BGEZAL). -/
def Cpu.op_bxx (c : Cpu) (i : Instruction) : Cpu :=
  let imm := i.imm_se
  let s := i.s
  let instruction := i.op
  let is_bgez := (instruction >>> 16) &&& 1
  let is_link := (instruction >>> 17) &&& 0xF = 8
  let v := toI32 (c.reg s)
  let test : Nat := b32 (decide (v < 0))
  let test := test ^^^ is_bgez
  let c := if is_link then c.set_reg 31 c.next_pc else c
  if test ≠ 0 then c.branch' imm else c

/-- Cpu::op_jal. -/
def Cpu.op_jal (c : Cpu) (i : Instruction) : Cpu :=
  let c := c.set_reg 31 c.next_pc
  c.op_j i

/-- Cpu::op_blez. -/
def Cpu.op_blez (c : Cpu) (i : Instruction) : Cpu :=
  if toI32 (c.reg i.s) ≤ 0 then c.branch' i.imm_se else c

/-- Cpu::op_bgtz. -/
def Cpu.op_bgtz (c : Cpu) (i : Instruction) : Cpu :=
  if toI32 (c.reg i.s) > 0 then c.branch' i.imm_se else c

/-- Cpu::op_slti. -/
def Cpu.op_slti (c : Cpu) (i : Instruction) : Cpu :=
  c.set_reg i.t (b32 (decide (toI32 (c.reg i.s) < toI32 i.imm_se)))

/-- Cpu::op_sltiu. -/
def Cpu.op_sltiu (c : Cpu) (i : Instruction) : Cpu :=
  c.set_reg i.t (b32 (decide (c.reg i.s < i.imm_se)))

/-- Cpu::op_andi. -/
def Cpu.op_andi (c : Cpu) (i : Instruction) : Cpu :=
  c.set_reg i.t (c.reg i.s &&& i.imm)

/-- Cpu::op_xori. -/
def Cpu.op_xori (c : Cpu) (i : Instruction) : Cpu :=
  c.set_reg i.t (c.reg i.s ^^^ i.imm)

/-- Cpu::op_lb: sign-extended byte load into the pending-load slot. -/
def Cpu.op_lb (c : Cpu) (i : Instruction) : Option Cpu := do
  let addr := wadd32 (c.reg i.s) i.imm_se
  let (v, c) ← c.load8 addr
  pure { c with load := (i.t, sext8 v) }

/-- Cpu::op_lh: sign-extended halfword load; misalignment raises
LoadAddressError. -/
def Cpu.op_lh (c : Cpu) (i : Instruction) : Option Cpu :=
  let addr := wadd32 (c.reg i.s) i.imm_se
  if addr % 2 = 0 then do
    let (v, c) ← c.load16 addr
    pure { c with load := (i.t, sext16 v) }
  else some (c.exception .LoadAddressError)

/-- Cpu::op_lw: word load into the pending-load slot; misalignment raises
LoadAddressError. -/
def Cpu.op_lw (c : Cpu) (i : Instruction) : Option Cpu :=
  let addr := wadd32 (c.reg i.s) i.imm_se
  if addr % 4 = 0 then do
    let (v, c) ← c.load32 addr
    pure { c with load := (i.t, v) }
  else some (c.exception .LoadAddressError)

/-- Cpu::op_lwl: unaligned-left word load, merging with the current
out-register value. -/
def Cpu.op_lwl (c : Cpu) (i : Instruction) : Option Cpu := do
  let addr := wadd32 (c.reg i.s) i.imm_se
  let cur_v := c.out_regs i.t
  let aligned_addr := addr &&& 0xFFFFFFFC
  let (aligned_word, c) ← c.load32 aligned_addr
  let v ← match addr &&& 3 with
    | 0 => some ((cur_v &&& 0x00FFFFFF) ||| shl32 aligned_word 24)
    | 1 => some ((cur_v &&& 0x0000FFFF) ||| shl32 aligned_word 16)
    | 2 => some ((cur_v &&& 0x000000FF) ||| shl32 aligned_word 8)
    | 3 => some ((cur_v &&& 0x00000000) ||| shl32 aligned_word 0)
    | _ => none
  pure { c with load := (i.t, v) }

/-- Cpu::op_lbu. -/
def Cpu.op_lbu (c : Cpu) (i : Instruction) : Option Cpu := do
  let addr := wadd32 (c.reg i.s) i.imm_se
  let (v, c) ← c.load8 addr
  pure { c with load := (i.t, v) }

/-- Cpu::op_lhu. -/
def Cpu.op_lhu (c : Cpu) (i : Instruction) : Option Cpu :=
  let addr := wadd32 (c.reg i.s) i.imm_se
  if addr % 2 = 0 then do
    let (v, c) ← c.load16 addr
    pure { c with load := (i.t, v) }
  else some (c.exception .LoadAddressError)

/-- Cpu::op_lwr: unaligned-right word load. -/
def Cpu.op_lwr (c : Cpu) (i : Instruction) : Option Cpu := do
  let addr := wadd32 (c.reg i.s) i.imm_se
  let cur_v := c.out_regs i.t
  let aligned_addr := addr &&& 0xFFFFFFFC
  let (aligned_word, c) ← c.load32 aligned_addr
  let v ← match addr &&& 3 with
    | 0 => some ((cur_v &&& 0x00000000) ||| (aligned_word >>> 0))
    | 1 => some ((cur_v &&& 0xFF000000) ||| (aligned_word >>> 8))
    | 2 => some ((cur_v &&& 0xFFFF0000) ||| (aligned_word >>> 16))
    | 3 => some ((cur_v &&& 0xFFFFFF00) ||| (aligned_word >>> 24))
    | _ => none
  pure { c with load := (i.t, v) }

/-- Cpu::op_sb (the op re-checks cache isolation before Cpu::store does). -/
def Cpu.op_sb (c : Cpu) (i : Instruction) : Option Cpu :=
  if c.sr &&& 0x10000 ≠ 0 then some c
  else
    let addr := wadd32 (c.reg i.s) i.imm_se
    c.store8 addr (c.reg i.t % 256)

/-- Cpu::op_sh; misalignment raises StoreAddressError. -/
def Cpu.op_sh (c : Cpu) (i : Instruction) : Option Cpu :=
  if c.sr &&& 0x10000 ≠ 0 then some c
  else
    let addr := wadd32 (c.reg i.s) i.imm_se
    if addr % 2 = 0 then c.store16 addr (c.reg i.t % 65536)
    else some (c.exception .StoreAddressError)

/-- Cpu::op_sw; misalignment raises StoreAddressError. -/
def Cpu.op_sw (c : Cpu) (i : Instruction) : Option Cpu :=
  if c.sr &&& 0x10000 ≠ 0 then some c
  else
    let addr := wadd32 (c.reg i.s) i.imm_se
    if addr % 4 = 0 then c.store32 addr (c.reg i.t)
    else some (c.exception .StoreAddressError)

/-- Cpu::op_swl: unaligned-left word store (read-modify-write on the aligned
word). -/
def Cpu.op_swl (c : Cpu) (i : Instruction) : Option Cpu := do
  let addr := wadd32 (c.reg i.s) i.imm_se
  let v := c.reg i.t
  let aligned_addr := addr &&& 0xFFFFFFFC
  let (cur_mem, c) ← c.load32 aligned_addr
  let mem ← match addr &&& 3 with
    | 0 => some ((cur_mem &&& 0xFFFFFF00) ||| (v >>> 24))
    | 1 => some ((cur_mem &&& 0xFFFF0000) ||| (v >>> 16))
    | 2 => some ((cur_mem &&& 0xFF000000) ||| (v >>> 8))
    | 3 => some ((cur_mem &&& 0x00000000) ||| (v >>> 0))
    | _ => none
  c.store32 aligned_addr mem

/-- Cpu::op_swr: unaligned-right word store. -/
def Cpu.op_swr (c : Cpu) (i : Instruction) : Option Cpu := do
  let addr := wadd32 (c.reg i.s) i.imm_se
  let v := c.reg i.t
  let aligned_addr := addr &&& 0xFFFFFFFC
  let (cur_mem, c) ← c.load32 aligned_addr
  let mem ← match addr &&& 3 with
    | 0 => some ((cur_mem &&& 0x00000000) ||| shl32 v 0)
    | 1 => some ((cur_mem &&& 0x000000FF) ||| shl32 v 8)
    | 2 => some ((cur_mem &&& 0x0000FFFF) ||| shl32 v 16)
    | 3 => some ((cur_mem &&& 0x00FFFFFF) ||| shl32 v 24)
    | _ => none
  c.store32 aligned_addr mem

/-- Cpu::op_lwc0. -/
def Cpu.op_lwc0 (c : Cpu) (_ : Instruction) : Cpu := c.exception .CoprocessorError

/-- Cpu::op_lwc1. -/
def Cpu.op_lwc1 (c : Cpu) (_ : Instruction) : Cpu := c.exception .CoprocessorError

/-- Cpu::op_lwc2 (panics in the source). -/
def Cpu.op_lwc2 (_ : Cpu) (_ : Instruction) : Option Cpu := none

/-- Cpu::op_lwc3. -/
def Cpu.op_lwc3 (c : Cpu) (_ : Instruction) : Cpu := c.exception .CoprocessorError

/-- Cpu::op_swc0. -/
def Cpu.op_swc0 (c : Cpu) (_ : Instruction) : Cpu := c.exception .CoprocessorError

/-- Cpu::op_swc1. -/
def Cpu.op_swc1 (c : Cpu) (_ : Instruction) : Cpu := c.exception .CoprocessorError

/-- Cpu::op_swc2 (panics in the source). -/
def Cpu.op_swc2 (_ : Cpu) (_ : Instruction) : Option Cpu := none

/-- Cpu::op_swc3. -/
def Cpu.op_swc3 (c : Cpu) (_ : Instruction) : Cpu := c.exception .CoprocessorError

/-- Cpu::op_illegal. -/
def Cpu.op_illegal (c : Cpu) (_ : Instruction) : Cpu := c.exception .IllegalInstruction

/-- Cpu::decode_and_execute. -/
def Cpu.decode_and_execute (c : Cpu) (i : Instruction) : Option Cpu :=
  let c := { c with stalls := c.stalls + 1 }
  let c := c.debug_bios_func
  match i.function with
  | 0b000000 =>
    (match i.subfunction with
    | 0b000000 => some (c.op_sll i)
    | 0b000010 => some (c.op_srl i)
    | 0b000011 => some (c.op_sra i)
    | 0b000100 => some (c.op_sllv i)
    | 0b000110 => some (c.op_srlv i)
    | 0b000111 => some (c.op_srav i)
    | 0b001000 => some (c.op_jr i)
    | 0b001001 => some (c.op_jalr i)
    | 0b001100 => some (c.op_syscall i)
    | 0b001101 => some (c.op_break i)
    | 0b010000 => some (c.op_mfhi i)
    | 0b010001 => some (c.op_mthi i)
    | 0b010010 => some (c.op_mflo i)
    | 0b010011 => some (c.op_mtlo i)
    | 0b011000 => some (c.op_mult i)
    | 0b011001 => some (c.op_multu i)
    | 0b011010 => some (c.op_div i)
    | 0b011011 => some (c.op_divu i)
    | 0b100000 => some (c.op_add i)
    | 0b100001 => some (c.op_addu i)
    | 0b100010 => some (c.op_sub i)
    | 0b100011 => some (c.op_subu i)
    | 0b100100 => some (c.op_and i)
    | 0b100101 => some (c.op_or i)
    | 0b100110 => some (c.op_xor i)
    | 0b100111 => some (c.op_nor i)
    | 0b101010 => some (c.op_slt i)
    | 0b101011 => some (c.op_sltu i)
    | _ => some (c.op_illegal i))
  | 0b000001 => some (c.op_bxx i)
  | 0b000010 => some (c.op_j i)
  | 0b000011 => some (c.op_jal i)
  | 0b000100 => some (c.op_beq i)
  | 0b000101 => some (c.op_bne i)
  | 0b000110 => some (c.op_blez i)
  | 0b000111 => some (c.op_bgtz i)
  | 0b001000 => some (c.op_addi i)
  | 0b001001 => some (c.op_addiu i)
  | 0b001010 => some (c.op_slti i)
  | 0b001011 => some (c.op_sltiu i)
  | 0b001100 => some (c.op_andi i)
  | 0b001101 => some (c.op_ori i)
  | 0b001110 => some (c.op_xori i)
  | 0b001111 => some (c.op_lui i)
  | 0b010000 => c.op_cop0 i
  | 0b010001 => some (c.op_cop1 i)
  | 0b010010 => c.op_cop2 i
  | 0b010011 => some (c.op_cop3 i)
  | 0b100000 => c.op_lb i
  | 0b100001 => c.op_lh i
  | 0b100010 => c.op_lwl i
  | 0b100011 => c.op_lw i
  | 0b100100 => c.op_lbu i
  | 0b100101 => c.op_lhu i
  | 0b100110 => c.op_lwr i
  | 0b101000 => c.op_sb i
  | 0b101001 => c.op_sh i
  | 0b101010 => c.op_swl i
  | 0b101011 => c.op_sw i
  | 0b101110 => c.op_swr i
  | 0b110000 => some (c.op_lwc0 i)
  | 0b110001 => some (c.op_lwc1 i)
  | 0b110010 => c.op_lwc2 i
  | 0b110011 => some (c.op_lwc3 i)
  | 0b111000 => some (c.op_swc0 i)
  | 0b111001 => some (c.op_swc1 i)
  | 0b111010 => c.op_swc2 i
  | 0b111011 => some (c.op_swc3 i)
  | _ => some (c.op_illegal i)

/-- Cpu::step: one call of the top-level step function.  The thread::sleep
at the BIOS entry point only delays the host and is skipped.  The result is
the successor state paired with the Rust return value Option<Event>; a
panicking execution is none. -/
def Cpu.step (c : Cpu) : Option (Cpu × Option Event) :=
  let c := { c with event := none }
  let c := { c with inter := c.inter.tick }
  if 0 < c.stalls then
    some ({ c with stalls := c.stalls - 1 }, c.event)
  else
  let c := { c with current_pc := c.pc }
  if c.current_pc % 4 ≠ 0 then
    let c := c.exception .LoadAddressError
    some (c, some (c.event.getD .DoneStep))
  else do
  let c := { c with stalls := c.stalls + 4 }
  let (w, c) ← c.load32 c.pc
  let instruction : Instruction := ⟨w⟩
  let c := { c with pc := c.next_pc, next_pc := wadd32 c.next_pc 4 }
  let rv := c.load
  let c := c.set_reg rv.1 rv.2
  let c := { c with load := (0, 0) }
  let c := { c with delay_slot := c.branch, branch := false }
  let c ← if c.check_irq then
      let c := { c with cause := c.cause ||| (1 <<< 10), stalls := c.stalls + 1 }
      some (c.exception .Irq)
    else c.decode_and_execute instruction
  let c := { c with regs := c.out_regs }
  if c.breakpoints.contains c.pc then
    let c := { c with event := some Event.Break }
    some (c, c.event)
  else
    some (c, some (c.event.getD .DoneStep))

/-- Iterate Cpu::step, keeping the final state. -/
def Cpu.stepN : Nat → Cpu → Option Cpu
  | 0, c => some c
  | n + 1, c =>
    match c.step with
    | some (c', _) => Cpu.stepN n c'
    | none => none

/-! ## src/cdrom.rs (partial)

The CD-ROM front-end is embedded for its command scheduler and stat byte.
The register-port load/store surface and the data-fifo cursor are outside
the claims and omitted.  The Rust scheduler stores boxed closures in the
task queue; each closure body appearing in the source is reified as a
CdRomTask tag interpreted by CdRom.runTask. -/

inductive ControllerStatus where
  | Idle
  | ParamPush
  | CommandPush
  | Execution
  | ResponseFlush
  | ResponsePush
  | IrqDelay

inductive CdRomStatus where
  | Idle
  | Seeking
  | Reading

inductive CdRomIrq where
  | ReadReady
  | SecondOk
  | FirstOk
  | Error

/-- CdRomIrq discriminants. -/
def CdRomIrq.code : CdRomIrq → Nat
  | .ReadReady => 1
  | .SecondOk => 2
  | .FirstOk => 3
  | .Error => 5

/-- Mss(min, sec, sector). -/
structure Mss where
  min : Nat
  sec : Nat
  sector : Nat

/-- Mss::into_addr. -/
def Mss.into_addr (m : Mss) (raw : Bool) : Nat :=
  m.sector * (if raw then 924 else 800)

/-- The sub-CPU controller state machine (struct Controller); its task slot
holds only commented-out code and is omitted. -/
structure Controller where
  command : Option Nat
  status : ControllerStatus
  stalls : Nat
  param : List Nat
  response : List Nat
  irq : Option CdRomIrq

/-- Controller::new. -/
def Controller.new : Controller :=
  { command := none, status := .Idle, stalls := 0, param := [],
    response := [], irq := none }

/-- Controller::tick. -/
def Controller.tick (c : Controller) : Controller :=
  if 0 < c.stalls then { c with stalls := c.stalls - 1 } else c

/-- The closures scheduled by CD-ROM commands, reified. -/
inductive CdRomTask where
  | getStatReply
  | initReply1
  | initReply2
  | setModeReply (mode : Nat)
  | setLocReply (addr : Mss)
  | readNReply1
  | readNReply2
  | pauseReply1
  | pauseReply2
  | readTocReply2
  | seekLReply1
  | seekLReply2
  | testVersionReply
  | getIdReply1
  | getIdNoDisc
  | getIdDisc

/-- CD-ROM front-end state (struct CdRom); the disc is an optional byte
blob. -/
structure CdRom where
  index : Nat
  controller : Controller
  disc : Option (Nat → Nat)
  parameter_fifo : List Nat
  response_fifo : List Nat
  data_fifo : List Nat
  status : CdRomStatus
  stat_updated : Bool
  double_speed : Bool
  raw_sector : Bool
  read_active : Bool
  seek_position : Option Mss
  current_position : Mss
  read_index : Nat
  ie : Nat
  irq : Nat
  tasks : List (Nat × CdRomTask)

/-- CdRom::new. -/
def CdRom.new (disc : Option (Nat → Nat)) : CdRom :=
  { index := 0, disc := disc, controller := Controller.new,
    parameter_fifo := [], response_fifo := [], data_fifo := [],
    status := .Idle, stat_updated := false, double_speed := false,
    raw_sector := false, read_active := false, seek_position := none,
    current_position := ⟨0, 0, 0⟩, read_index := 0, ie := 0, irq := 0,
    tasks := [] }

/-- CdRom::check_irq. -/
def CdRom.check_irq (c : CdRom) : Bool := c.irq &&& c.ie ≠ 0

/-- CdRom::raise_irq. -/
def CdRom.raise_irq (c : CdRom) (irq : CdRomIrq) : CdRom :=
  { c with irq := (c.irq &&& 0xF8) ||| (irq.code &&& 0x7) }

/-- CdRom::stat: the drive stat byte, together with the updated drive state.
The source returns 0x12 (shell opened, plus 2 for motor on) when there is no
disc or when stat has not yet been updated by a previous stat computation
with update = true. -/
def CdRom.stat (c : CdRom) (update : Bool) : Nat × CdRom :=
  let stat_updated := c.stat_updated
  let c := if update then { c with stat_updated := true } else c
  if c.disc.isNone ∨ stat_updated = false then (0x12, c)
  else
    match c.status with
    | .Idle => (0x02, c)
    | .Seeking => (0x42, c)
    | .Reading => (0x22, c)

/-- Run one reified scheduled task (the closure bodies of the source). -/
def CdRom.runTask (c : CdRom) : CdRomTask → CdRom
  | .getStatReply =>
    let sc := c.stat true
    let c := { sc.2 with response_fifo := sc.2.response_fifo ++ [sc.1] }
    c.raise_irq .FirstOk
  | .initReply1 =>
    let sc := c.stat false
    let c := { sc.2 with response_fifo := sc.2.response_fifo ++ [sc.1] }
    c.raise_irq .FirstOk
  | .initReply2 =>
    let c := { c with double_speed := false, raw_sector := false }
    let sc := c.stat false
    let c := { sc.2 with response_fifo := sc.2.response_fifo ++ [sc.1] }
    c.raise_irq .SecondOk
  | .setModeReply mode =>
    let c := { c with double_speed := mode &&& 0x80 ≠ 0,
                      raw_sector := mode &&& 0x20 ≠ 0 }
    let sc := c.stat false
    let c := { sc.2 with response_fifo := sc.2.response_fifo ++ [sc.1] }
    c.raise_irq .FirstOk
  | .setLocReply addr =>
    let c := { c with seek_position := some addr }
    let sc := c.stat false
    let c := { sc.2 with response_fifo := sc.2.response_fifo ++ [sc.1] }
    c.raise_irq .FirstOk
  | .readNReply1 =>
    let sc := c.stat false
    let c := { sc.2 with response_fifo := sc.2.response_fifo ++ [sc.1] }
    c.raise_irq .FirstOk
  | .readNReply2 =>
    let c := { c with status := .Reading }
    let sc := c.stat false
    let c := { sc.2 with response_fifo := sc.2.response_fifo ++ [sc.1] }
    c.raise_irq .ReadReady
  | .pauseReply1 =>
    let sc := c.stat false
    let c := { sc.2 with response_fifo := sc.2.response_fifo ++ [sc.1] }
    c.raise_irq .FirstOk
  | .pauseReply2 =>
    let c := { c with status := .Idle }
    let sc := c.stat false
    let c := { sc.2 with response_fifo := sc.2.response_fifo ++ [sc.1] }
    c.raise_irq .SecondOk
  | .readTocReply2 =>
    let sc := c.stat false
    let c := { sc.2 with response_fifo := sc.2.response_fifo ++ [sc.1] }
    c.raise_irq .SecondOk
  | .seekLReply1 =>
    let c := { c with status := .Seeking }
    let sc := c.stat false
    let c := { sc.2 with response_fifo := sc.2.response_fifo ++ [sc.1] }
    c.raise_irq .FirstOk
  | .seekLReply2 =>
    let c := { c with status := .Idle, read_index := 0 }
    let sc := c.stat false
    let c := { sc.2 with response_fifo := sc.2.response_fifo ++ [sc.1] }
    c.raise_irq .SecondOk
  | .testVersionReply =>
    let c := { c with response_fifo := c.response_fifo ++ [0x96, 0x09, 0x12, 0xC2] }
    c.raise_irq .FirstOk
  | .getIdReply1 =>
    let sc := c.stat false
    let c := { sc.2 with response_fifo := sc.2.response_fifo ++ [sc.1] }
    c.raise_irq .FirstOk
  | .getIdNoDisc =>
    let c := { c with response_fifo :=
      c.response_fifo ++ [0x08, 0x40, 0x00, 0x00, 0x00, 0x00, 0x00, 0x00] }
    c.raise_irq .Error
  | .getIdDisc =>
    let c := { c with response_fifo :=
      c.response_fifo ++ [0x02, 0x00, 0x20, 0x00, 0x53, 0x43, 0x45, 0x49] }
    c.raise_irq .SecondOk

/-- CdRom::tick: count down the head task and fire it at zero, then tick the
controller. -/
def CdRom.tick (c : CdRom) : CdRom :=
  let c := match c.tasks with
    | [] => c
    | (delay, task) :: rest =>
      if 0 < delay then { c with tasks := (delay - 1, task) :: rest }
      else CdRom.runTask { c with tasks := rest } task
  { c with controller := c.controller.tick }

/-- Iterate CdRom::tick. -/
def CdRom.tickN : Nat → CdRom → CdRom
  | 0, c => c
  | n + 1, c => CdRom.tickN n c.tick

/-- CdRom::get_stat: schedule the stat reply. -/
def CdRom.get_stat (c : CdRom) : CdRom :=
  { c with tasks := c.tasks ++ [(50000, .getStatReply)] }

/-- CdRom::init. -/
def CdRom.init (c : CdRom) : CdRom :=
  { c with tasks := c.tasks ++ [(50000, .initReply1), (900000, .initReply2)] }

/-- CdRom::set_mode; indexing an empty parameter fifo panics. -/
def CdRom.set_mode (c : CdRom) : Option CdRom := do
  let mode ← c.parameter_fifo.head?
  pure { c with tasks := c.tasks ++ [(50000, .setModeReply mode)] }

/-- CdRom::set_loc; missing parameters panic. -/
def CdRom.set_loc (c : CdRom) : Option CdRom := do
  let m ← c.parameter_fifo.get? 0
  let s ← c.parameter_fifo.get? 1
  let f ← c.parameter_fifo.get? 2
  pure { c with tasks := c.tasks ++ [(50000, .setLocReply ⟨m, s, f⟩)] }

/-- CdRom::read_n. -/
def CdRom.read_n (c : CdRom) : CdRom :=
  { c with tasks := c.tasks ++ [(50000, .readNReply1), (50000, .readNReply2)] }

/-- CdRom::read_s. -/
def CdRom.read_s (c : CdRom) : CdRom := c.read_n

/-- CdRom::pause. -/
def CdRom.pause (c : CdRom) : CdRom :=
  { c with tasks := c.tasks ++ [(50000, .pauseReply1), (50000, .pauseReply2)] }

/-- CdRom::read_toc: the first reply is pushed immediately, the second is
scheduled. -/
def CdRom.read_toc (c : CdRom) : CdRom :=
  let sc := c.stat false
  let c := { sc.2 with response_fifo := sc.2.response_fifo ++ [sc.1] }
  let c := c.raise_irq .FirstOk
  { c with tasks := c.tasks ++ [(50000, .readTocReply2)] }

/-- CdRom::seek_l. -/
def CdRom.seek_l (c : CdRom) : CdRom :=
  let c := match c.seek_position with
    | some position => { c with current_position := position }
    | none => c
  { c with tasks := c.tasks ++ [(50000, .seekLReply1), (50000, .seekLReply2)] }

/-- CdRom::test_version. -/
def CdRom.test_version (c : CdRom) : CdRom :=
  { c with tasks := c.tasks ++ [(50000, .testVersionReply)] }

/-- CdRom::test: pop the subfunction byte; only 0x20 is supported. -/
def CdRom.test (c : CdRom) : CdRom :=
  match c.parameter_fifo with
  | [] => c
  | p :: rest =>
    let c := { c with parameter_fifo := rest }
    if p = 0x20 then c.test_version else c

/-- CdRom::get_id. -/
def CdRom.get_id (c : CdRom) : CdRom :=
  let c := { c with tasks := c.tasks ++ [(50000, CdRomTask.getIdReply1)] }
  if c.disc.isNone then
    { c with tasks := c.tasks ++ [(50000, CdRomTask.getIdNoDisc)] }
  else { c with tasks := c.tasks ++ [(50000, CdRomTask.getIdDisc)] }

/-- CdRom::command: dispatch a command byte; a supported command then clears
the parameter fifo, an unsupported one returns early without clearing. -/
def CdRom.command (c : CdRom) (val : Nat) : Option CdRom :=
  match val with
  | 0x01 => some { c.get_stat with parameter_fifo := [] }
  | 0x02 => (c.set_loc).map fun c => { c with parameter_fifo := [] }
  | 0x06 => some { c.read_n with parameter_fifo := [] }
  | 0x09 => some { c.pause with parameter_fifo := [] }
  | 0x0A => some { c.init with parameter_fifo := [] }
  | 0x0E => (c.set_mode).map fun c => { c with parameter_fifo := [] }
  | 0x15 => some { c.seek_l with parameter_fifo := [] }
  | 0x19 => some { c.test with parameter_fifo := [] }
  | 0x1A => some { c.get_id with parameter_fifo := [] }
  | 0x1B => some { c.read_s with parameter_fifo := [] }
  | 0x1E => some { c.read_toc with parameter_fifo := [] }
  | _ => some c

/-! ## Shared fixtures and helper lemmas -/

/-- A BIOS image whose bytes are all zero (every word decodes as SLL r0). -/
def biosZero : Bios := ⟨fun _ => 0⟩

/-- A freshly constructed interconnect around the zero BIOS. -/
def icZero : Interconnect := Interconnect.new biosZero (Gpu.new Renderer.new)

theorem land_ffffffff (a : Nat) (h : a < U32LIM) : a &&& 0xFFFFFFFF = a := by
  have h1 : (0xFFFFFFFF : Nat) = 2 ^ 32 - 1 := by norm_num
  rw [h1, Nat.and_pow_two_sub_one_eq_mod]
  exact Nat.mod_eq_of_lt h

theorem toI32_eq_zero_iff (n : Nat) (h : n < U32LIM) : toI32 n = 0 ↔ n = 0 := by
  unfold toI32 U32LIM at *
  rw [Nat.mod_eq_of_lt h]
  split <;> omega

theorem toI32_eq_negone_iff (n : Nat) (h : n < U32LIM) :
    toI32 n = -1 ↔ n = 0xFFFFFFFF := by
  unfold toI32 U32LIM at *
  rw [Nat.mod_eq_of_lt h]
  split <;> omega

theorem u32ofInt_toI32 (n : Nat) (h : n < U32LIM) : u32ofInt (toI32 n) = n := by
  unfold toI32 u32ofInt U32LIM at *
  rw [Nat.mod_eq_of_lt h]
  split <;> omega

/-! ## Claim C4: address masking -/

/-- Claim C4: for every 32-bit virtual address the physical mapping is keyed
on bits 31:29 only: KUSEG and KSEG2 addresses map to themselves, KSEG0
addresses are masked with 0x7FFFFFFF, KSEG1 addresses with 0x1FFFFFFF; and
the four concrete mask values of the spec hold. -/
theorem claim_C4_address_masking (a : Nat) (h : a < U32LIM) :
    (a < 0x80000000 → map.mask_region a = a) ∧
    (0x80000000 ≤ a → a < 0xA0000000 → map.mask_region a = a &&& 0x7FFFFFFF) ∧
    (0xA0000000 ≤ a → a < 0xC0000000 → map.mask_region a = a &&& 0x1FFFFFFF) ∧
    (0xC0000000 ≤ a → map.mask_region a = a) ∧
    map.mask_region 0xBFC00000 = 0x1FC00000 ∧
    map.mask_region 0xA0000000 = 0 ∧
    map.mask_region 0x80000080 = 0x80 ∧
    map.mask_region 0x00001234 = 0x1234 := by
  have hL : U32LIM = 4294967296 := rfl
  refine ⟨?_, ?_, ?_, ?_, by decide, by decide, by decide, by decide⟩
  · intro h1
    have h29 : a >>> 29 = 0 ∨ a >>> 29 = 1 ∨ a >>> 29 = 2 ∨ a >>> 29 = 3 := by
      rw [Nat.shiftRight_eq_div_pow]; omega
    unfold map.mask_region
    rcases h29 with h29 | h29 | h29 | h29 <;> rw [h29] <;> exact land_ffffffff a h
  · intro h1 h2
    have h29 : a >>> 29 = 4 := by rw [Nat.shiftRight_eq_div_pow]; omega
    unfold map.mask_region
    rw [h29]; rfl
  · intro h1 h2
    have h29 : a >>> 29 = 5 := by rw [Nat.shiftRight_eq_div_pow]; omega
    unfold map.mask_region
    rw [h29]; rfl
  · intro h1
    have h29 : a >>> 29 = 6 ∨ a >>> 29 = 7 := by
      rw [Nat.shiftRight_eq_div_pow]; omega
    unfold map.mask_region
    rcases h29 with h29 | h29 <;> rw [h29] <;> exact land_ffffffff a h

/-- Witness for C4 at the spec's concrete addresses. -/
theorem claim_C4_address_masking_witness :
    ((0xBFC00000 : Nat) < U32LIM ∧ map.mask_region 0xBFC00000 = 0x1FC00000) ∧
    ((0x00001234 : Nat) < U32LIM ∧ map.mask_region 0x00001234 = 0x00001234) :=
  ⟨⟨by decide, (claim_C4_address_masking 0xBFC00000 (by decide)).2.2.2.2.1⟩,
   ⟨by decide, (claim_C4_address_masking 0x00001234 (by decide)).1 (by decide)⟩⟩

/-! ## Claim C10: reset state -/

/-- Claim C10: a freshly constructed CPU has PC 0xBFC00000, next-PC
0xBFC00004, SR = CAUSE = EPC = 0, an empty pending-load slot, register 0
zero and every other register 0xDEADBEEF; fresh RAM and scratchpad are
filled with 0xCA. -/
theorem claim_C10_reset_state (inter : Interconnect) :
    (Cpu.new inter).pc = 0xBFC00000 ∧
    (Cpu.new inter).next_pc = 0xBFC00004 ∧
    (Cpu.new inter).sr = 0 ∧
    (Cpu.new inter).cause = 0 ∧
    (Cpu.new inter).epc = 0 ∧
    (Cpu.new inter).load = (0, 0) ∧
    (∀ i : Fin 32, (Cpu.new inter).regs i.val =
      if i.val = 0 then 0 else 0xDEADBEEF) ∧
    (∀ off : Nat, Ram.new.data off = 0xCA) ∧
    (∀ off : Nat, ScratchPad.new.data off = 0xCA) :=
  ⟨rfl, rfl, rfl, rfl, rfl, rfl, fun _ => rfl, fun _ => rfl, fun _ => rfl⟩

/-! ## Claim C2: exception entry (code bug in CAUSE update) -/

/-- A reachable-shaped CPU state with CAUSE software-interrupt bits 8-9 and
pending-IRQ bit 10 set, about to fault at 0x80001234. -/
def c2cpu : Cpu := { Cpu.new icZero with cause := 0x700, current_pc := 0x80001234 }

/-- Claim C2, evaluated at the failing input: Cpu::exception computes the
handler, SR push and EPC as the spec says, but overwrites the whole CAUSE
register with the exception code (the preceding cause &= !0x7C is dead
code), so the previously set CAUSE bits 8-10 are lost: the result is 0x20,
not the 0x720 the spec's preserve-other-bits rule requires. -/
theorem claim_C2_exception_cause_overwritten :
    c2cpu.cause = 0x700 ∧
    (c2cpu.exception .SysCall).cause = 0x20 ∧
    (c2cpu.exception .SysCall).cause ≠ 0x720 ∧
    (c2cpu.exception .SysCall).pc = 0x80000080 ∧
    (c2cpu.exception .SysCall).next_pc = 0x80000084 ∧
    (c2cpu.exception .SysCall).epc = 0x80001234 ∧
    (c2cpu.exception .SysCall).sr = 0 := by
  refine ⟨rfl, rfl, by decide, rfl, rfl, rfl, rfl⟩

/-! ## Claim C7: cache-isolation store suppression (corrected) -/

/-- A reset CPU with SR bit 16 (cache isolation) set. -/
def c7cpu : Cpu := { Cpu.new icZero with sr := 0x10000 }

/-- Counterexample to C7 as stated: with the cache isolated, a word store to
the scratchpad (0x1F800000) is also dropped - the following load returns the
fresh scratchpad value 0xCACACACA, not the stored 0x12345678. -/
theorem claim_C7_isolated_store_counterexample :
    ((c7cpu.store32 0x1F800000 0x12345678).bind
      fun c2 => (c2.load32 0x1F800000).map Prod.fst) = some 0xCACACACA ∧
    (0xCACACACA : Nat) ≠ 0x12345678 := by
  refine ⟨rfl, by decide⟩

/-- Cpu::store32 under cache isolation returns the watch-checked state
unchanged. -/
theorem store32_isolated (c : Cpu) (a v : Nat) (h : c.sr &&& 0x10000 ≠ 0) :
    c.store32 a v = some (if c.watchpoints.contains a
      then { c with event := some (.WatchWrite a) } else c) := by
  by_cases hw : c.watchpoints.contains a
  · simp only [Cpu.store32, hw, if_true]
    rw [if_pos h]
  · simp only [Cpu.store32, hw, if_false, Bool.false_eq_true]
    rw [if_pos h]

/-- Cpu::store16 under cache isolation returns the watch-checked state
unchanged. -/
theorem store16_isolated (c : Cpu) (a v : Nat) (h : c.sr &&& 0x10000 ≠ 0) :
    c.store16 a v = some (if c.watchpoints.contains a
      then { c with event := some (.WatchWrite a) } else c) := by
  by_cases hw : c.watchpoints.contains a
  · simp only [Cpu.store16, hw, if_true]
    rw [if_pos h]
  · simp only [Cpu.store16, hw, if_false, Bool.false_eq_true]
    rw [if_pos h]

/-- Cpu::store8 under cache isolation returns the watch-checked state
unchanged. -/
theorem store8_isolated (c : Cpu) (a v : Nat) (h : c.sr &&& 0x10000 ≠ 0) :
    c.store8 a v = some (if c.watchpoints.contains a
      then { c with event := some (.WatchWrite a) } else c) := by
  by_cases hw : c.watchpoints.contains a
  · simp only [Cpu.store8, hw, if_true]
    rw [if_pos h]
  · simp only [Cpu.store8, hw, if_false, Bool.false_eq_true]
    rw [if_pos h]

/-- The value a Cpu::load::<u32> returns is the bus value. -/
theorem load32_fst (c : Cpu) (b : Nat) :
    (c.load32 b).map Prod.fst = c.inter.load32 b := by
  by_cases hw : c.watchpoints.contains b <;>
    simp only [Cpu.load32, hw, if_true, if_false, Bool.false_eq_true] <;>
    cases hl : c.inter.load32 b <;> simp [hl]

/-- The value a Cpu::load::<u16> returns is the bus value. -/
theorem load16_fst (c : Cpu) (b : Nat) :
    (c.load16 b).map Prod.fst = c.inter.load16 b := by
  by_cases hw : c.watchpoints.contains b <;>
    simp only [Cpu.load16, hw, if_true, if_false, Bool.false_eq_true] <;>
    cases hl : c.inter.load16 b <;> simp [hl]

/-- The value a Cpu::load::<u8> returns is the bus value. -/
theorem load8_fst (c : Cpu) (b : Nat) :
    (c.load8 b).map Prod.fst = c.inter.load8 b := by
  by_cases hw : c.watchpoints.contains b <;>
    simp only [Cpu.load8, hw, if_true, if_false, Bool.false_eq_true] <;>
    cases hl : c.inter.load8 b <;> simp [hl]

/-- Amended C7: while SR bit 16 is set, a store of any width to any address
(the scratchpad included) leaves the interconnect untouched, and a
subsequent load of any address and width returns the pre-store value. -/
theorem claim_C7_isolated_store (c : Cpu) (a v b : Nat)
    (h : c.sr &&& 0x10000 ≠ 0) :
    (c.store32 a v).map Cpu.inter = some c.inter ∧
    (c.store16 a v).map Cpu.inter = some c.inter ∧
    (c.store8 a v).map Cpu.inter = some c.inter ∧
    ((c.store32 a v).bind fun c2 => (c2.load32 b).map Prod.fst) =
      (c.load32 b).map Prod.fst ∧
    ((c.store16 a v).bind fun c2 => (c2.load16 b).map Prod.fst) =
      (c.load16 b).map Prod.fst ∧
    ((c.store8 a v).bind fun c2 => (c2.load8 b).map Prod.fst) =
      (c.load8 b).map Prod.fst := by
  rw [store32_isolated c a v h, store16_isolated c a v h, store8_isolated c a v h]
  by_cases hw : a ∈ c.watchpoints <;>
    simp [hw, load32_fst, load16_fst, load8_fst]

/-- Witness for C7 at a concrete isolated store to the scratchpad. -/
theorem claim_C7_isolated_store_witness :
    c7cpu.sr &&& 0x10000 ≠ 0 ∧
    ((c7cpu.store32 0x1F800000 0x12345678).map Cpu.inter = some c7cpu.inter ∧
     (c7cpu.store16 0x1F800000 0x12345678).map Cpu.inter = some c7cpu.inter ∧
     (c7cpu.store8 0x1F800000 0x12345678).map Cpu.inter = some c7cpu.inter ∧
     ((c7cpu.store32 0x1F800000 0x12345678).bind
        fun c2 => (c2.load32 0x1F800000).map Prod.fst) =
       (c7cpu.load32 0x1F800000).map Prod.fst ∧
     ((c7cpu.store16 0x1F800000 0x12345678).bind
        fun c2 => (c2.load16 0x1F800000).map Prod.fst) =
       (c7cpu.load16 0x1F800000).map Prod.fst ∧
     ((c7cpu.store8 0x1F800000 0x12345678).bind
        fun c2 => (c2.load8 0x1F800000).map Prod.fst) =
       (c7cpu.load8 0x1F800000).map Prod.fst) :=
  ⟨by decide, claim_C7_isolated_store c7cpu 0x1F800000 0x12345678 0x1F800000 (by decide)⟩

/-! ## Claim C8: one instruction per step (corrected: stall cycles) -/

/-- Counterexample to C8 as stated: from reset over the zero BIOS, the first
step executes an instruction (PC advances to 0xBFC00004 and the devices tick
once), but the second step call only ticks the devices again and leaves the
PC where it was: it neither fetches nor executes an instruction. -/
theorem claim_C8_step_counterexample :
    ((Cpu.stepN 1 (Cpu.new icZero)).map fun c => (c.pc, c.inter.ticks)) =
      some (0xBFC00004, 1) ∧
    ((Cpu.stepN 2 (Cpu.new icZero)).map fun c => (c.pc, c.inter.ticks)) =
      some (0xBFC00004, 2) ∧
    ((Cpu.stepN 1 (Cpu.new icZero)).map fun c => c.stalls) = some 7 := by
  refine ⟨rfl, rfl, rfl⟩

/-- Amended C8: a step call made while the stall counter is positive only
ticks the interconnect, clears the event and decrements the counter; in
particular it does not fetch or execute an instruction and no architectural
state (PC, registers, memory) changes.  A step therefore advances the CPU by
at most one instruction. -/
theorem claim_C8_step_stall (c : Cpu) (h : 0 < c.stalls) :
    c.step = some ({ c with
      event := none, inter := c.inter.tick, stalls := c.stalls - 1 }, none) := by
  unfold Cpu.step
  rw [if_pos h]

/-- A reset CPU given three pending stall cycles. -/
def c8cpu : Cpu := { Cpu.new icZero with stalls := 3 }

/-- Witness for C8 on a reset CPU given three pending stall cycles. -/
theorem claim_C8_step_stall_witness :
    0 < c8cpu.stalls ∧
    c8cpu.step = some ({ c8cpu with
      event := none, inter := c8cpu.inter.tick, stalls := c8cpu.stalls - 1 }, none) :=
  ⟨by decide, claim_C8_step_stall c8cpu (by decide)⟩

/-! ## Claim C3: division edge cases -/

/-- Claim C3: for all register values, DIV by zero sets HI to the dividend
and LO to 0xFFFFFFFF (dividend non-negative) or 1 (negative); DIV of
0x80000000 by -1 sets HI = 0 and LO = 0x80000000; DIVU by zero sets HI to
the dividend and LO to 0xFFFFFFFF; in every other case LO is the quotient
and HI the remainder (signed for DIV, unsigned for DIVU). -/
theorem claim_C3_div_edge_cases (s : Cpu) (i : Instruction)
    (hn : s.reg i.s < U32LIM) (hd : s.reg i.t < U32LIM) :
    (s.reg i.t = 0 →
      (s.op_div i).hi = s.reg i.s ∧
      (s.op_div i).lo = (if 0 ≤ toI32 (s.reg i.s) then 0xFFFFFFFF else 1) ∧
      (s.op_divu i).hi = s.reg i.s ∧ (s.op_divu i).lo = 0xFFFFFFFF) ∧
    (s.reg i.s = 0x80000000 → s.reg i.t = 0xFFFFFFFF →
      (s.op_div i).hi = 0 ∧ (s.op_div i).lo = 0x80000000) ∧
    (s.reg i.t ≠ 0 → ¬(s.reg i.s = 0x80000000 ∧ s.reg i.t = 0xFFFFFFFF) →
      (s.op_div i).lo = u32ofInt (Int.tdiv (toI32 (s.reg i.s)) (toI32 (s.reg i.t))) ∧
      (s.op_div i).hi = u32ofInt (Int.tmod (toI32 (s.reg i.s)) (toI32 (s.reg i.t)))) ∧
    (s.reg i.t ≠ 0 →
      (s.op_divu i).lo = s.reg i.s / s.reg i.t ∧
      (s.op_divu i).hi = s.reg i.s % s.reg i.t) := by
  refine ⟨?_, ?_, ?_, ?_⟩
  · intro h0
    have htz : toI32 0 = 0 := by decide
    have hh : u32ofInt (toI32 (s.reg i.s)) = s.reg i.s := u32ofInt_toI32 _ hn
    by_cases hs : 0 ≤ toI32 (s.reg i.s) <;>
      simp [Cpu.op_div, Cpu.op_divu, h0, htz, hs, hh, ge_iff_le]
  · intro h1 h2
    simp only [Cpu.op_div, h1, h2]
    exact ⟨rfl, rfl⟩
  · intro h1 h2
    have hd0 : toI32 (s.reg i.t) ≠ 0 := fun hc => h1 ((toI32_eq_zero_iff _ hd).mp hc)
    have hc2 : ¬(s.reg i.s % U32LIM = 0x80000000 ∧ toI32 (s.reg i.t) = -1) := by
      rw [Nat.mod_eq_of_lt hn]
      intro hc
      exact h2 ⟨hc.1, (toI32_eq_negone_iff _ hd).mp hc.2⟩
    simp only [Cpu.op_div, if_neg hd0, if_neg hc2]
    exact ⟨trivial, trivial⟩
  · intro h1
    simp only [Cpu.op_divu, if_neg h1]
    exact ⟨trivial, trivial⟩

/-- A CPU with concrete register values for the divide witness: r1 = 22
(rs of the tested instruction), r2 = 0 (rt). -/
def c3cpu : Cpu :=
  { Cpu.new icZero with
    regs := fun j => if j = 1 then 22 else if j = 2 then 0 else 0 }

/-- Witness for C3 on DIV/DIVU r1, r2 with r1 = 22 and r2 = 0 (instruction
word fields s = 1, t = 2). -/
theorem claim_C3_div_edge_cases_witness :
    (c3cpu.reg (Instruction.mk 0x00220018).s < U32LIM ∧
     c3cpu.reg (Instruction.mk 0x00220018).t < U32LIM) ∧
    (c3cpu.reg (Instruction.mk 0x00220018).t = 0 →
      (c3cpu.op_div (Instruction.mk 0x00220018)).hi =
        c3cpu.reg (Instruction.mk 0x00220018).s ∧
      (c3cpu.op_div (Instruction.mk 0x00220018)).lo =
        (if 0 ≤ toI32 (c3cpu.reg (Instruction.mk 0x00220018).s)
         then 0xFFFFFFFF else 1) ∧
      (c3cpu.op_divu (Instruction.mk 0x00220018)).hi =
        c3cpu.reg (Instruction.mk 0x00220018).s ∧
      (c3cpu.op_divu (Instruction.mk 0x00220018)).lo = 0xFFFFFFFF) :=
  ⟨⟨by decide, by decide⟩,
   (claim_C3_div_edge_cases c3cpu (Instruction.mk 0x00220018)
     (by decide) (by decide)).1⟩

/-! ## Claim C9: CD-ROM stat byte (corrected) -/

/-- The stat byte CdRom::stat computes, as a function of the pre-call
state. -/
theorem stat_fst (c : CdRom) (u : Bool) :
    (c.stat u).1 = if c.disc.isNone ∨ c.stat_updated = false then 0x12
      else match c.status with
        | .Idle => 0x02
        | .Seeking => 0x42
        | .Reading => 0x22 := by
  unfold CdRom.stat
  cases u <;> simp only [Bool.false_eq_true, if_false, if_true, reduceIte] <;>
    split <;> (try rfl) <;> (split <;> rfl)

/-- CdRom::stat only updates the stat_updated flag. -/
theorem stat_snd (c : CdRom) (u : Bool) :
    (c.stat u).2 = if u then { c with stat_updated := true } else c := by
  unfold CdRom.stat
  cases u <;> simp only [Bool.false_eq_true, if_false, if_true, reduceIte] <;>
    split <;> (try rfl) <;> (split <;> rfl)

/-- Scheduled CD-ROM tasks never touch the sub-CPU controller state. -/
theorem runTask_controller (c : CdRom) (t : CdRomTask) :
    (c.runTask t).controller = c.controller := by
  cases t <;> simp [CdRom.runTask, CdRom.raise_irq, stat_snd] <;> split <;> rfl

/-- Controller::tick is the identity when no stall cycles are pending. -/
theorem controller_tick_zero (ct : Controller) (h : ct.stalls = 0) :
    ct.tick = ct := by
  unfold Controller.tick
  rw [h]
  rw [if_neg (lt_irrefl 0)]

/-- Replacing the controller field by its own value is the identity. -/
theorem set_controller_self (x : CdRom) (v : Controller) (h : x.controller = v) :
    { x with controller := v } = x := by
  subst h; rfl

/-- Ticking d + 1 times fires the single queued task with delay d. -/
theorem tickN_fire (d : Nat) : ∀ (t : CdRomTask) (c : CdRom),
    c.controller.stalls = 0 → c.tasks = [(d, t)] →
    CdRom.tickN (d + 1) c = CdRom.runTask { c with tasks := [] } t := by
  induction d with
  | zero =>
    intro t c h0 ht
    show CdRom.tick c = _
    have h1 : CdRom.tick c = { CdRom.runTask { c with tasks := [] } t with
        controller := (CdRom.runTask { c with tasks := [] } t).controller.tick } := by
      unfold CdRom.tick
      rw [ht]
      rfl
    rw [h1, runTask_controller, controller_tick_zero _ h0]
    exact set_controller_self _ _ (runTask_controller _ _)
  | succ d ih =>
    intro t c h0 ht
    show CdRom.tickN (d + 1) c.tick = _
    have h1 : CdRom.tick c = { ({ c with tasks := [(d, t)] } : CdRom) with
        controller := c.controller.tick } := by
      unfold CdRom.tick
      rw [ht]
      simp only [Nat.zero_lt_succ, if_true, Nat.add_sub_cancel]
    rw [h1, controller_tick_zero _ h0]
    exact ih t _ h0 rfl

/-- Amended C9: the stat byte is 0x12 (shell open / motor on) whenever no
disc is loaded or stat has not yet been updated by an earlier GetStat;
otherwise it is 0x02 when idle, 0x42 when seeking and 0x22 when reading; and
the byte the GetStat command pushes to the response FIFO when its scheduled
task fires is exactly that stat byte of the command-time state. -/
theorem claim_C9_stat_byte :
    (∀ (c : CdRom) (u : Bool), (c.stat u).1 =
      if c.disc.isNone ∨ c.stat_updated = false then 0x12
      else match c.status with
        | .Idle => 0x02
        | .Seeking => 0x42
        | .Reading => 0x22) ∧
    (∀ (c c' : CdRom), c.controller.stalls = 0 → c.tasks = [] →
      c.response_fifo = [] → c.command 0x01 = some c' →
      (CdRom.tickN 50001 c').response_fifo =
        [if c.disc.isNone ∨ c.stat_updated = false then 0x12
         else match c.status with
           | .Idle => 0x02
           | .Seeking => 0x42
           | .Reading => 0x22]) := by
  constructor
  · exact stat_fst
  · intro c c' h0 ht hresp hcmd
    have h1 : CdRom.command c 0x01 =
        some { c.get_stat with parameter_fifo := [] } := rfl
    rw [h1] at hcmd
    have hc' : c' = { c.get_stat with parameter_fifo := [] } :=
      (Option.some_inj.mp hcmd).symm
    subst hc'
    have htasks : ({ c.get_stat with parameter_fifo := [] } : CdRom).tasks =
        [(50000, CdRomTask.getStatReply)] := by
      simp [CdRom.get_stat, ht]
    rw [show (50001 : Nat) = 50000 + 1 from rfl]
    rw [tickN_fire 50000 CdRomTask.getStatReply
      { c.get_stat with parameter_fifo := [] } h0 htasks]
    simp [CdRom.runTask, CdRom.raise_irq, stat_fst, stat_snd, CdRom.get_stat, hresp]

/-- Counterexample to C9 as stated: with no disc loaded, the stat byte the
GetStat command pushes is 0x12, not 0x10. -/
theorem claim_C9_stat_byte_counterexample :
    ((CdRom.new none).command 0x01).map
      (fun c => (CdRom.tickN 50001 c).response_fifo) = some [0x12] ∧
    (0x12 : Nat) ≠ 0x10 := by
  constructor
  · have h1 : (CdRom.new none).command 0x01 =
        some { (CdRom.new none).get_stat with parameter_fifo := [] } := rfl
    rw [h1]
    simp only [Option.map_some']
    rw [show (50001 : Nat) = 50000 + 1 from rfl]
    rw [tickN_fire 50000 CdRomTask.getStatReply _ rfl rfl]
    rfl
  · decide

/-- A drive with a disc, updated stat and a seek in progress. -/
def c9cd : CdRom :=
  { CdRom.new (some fun _ => 0) with stat_updated := true, status := .Seeking }

/-- Witness for C9: on the seeking drive the pushed stat byte is 0x42. -/
theorem claim_C9_stat_byte_witness :
    c9cd.controller.stalls = 0 ∧
    (CdRom.tickN 50001
      { c9cd.get_stat with parameter_fifo := [] }).response_fifo = [0x42] :=
  ⟨rfl, by
    have h := claim_C9_stat_byte.2 c9cd
      { c9cd.get_stat with parameter_fifo := [] } rfl rfl rfl rfl
    simpa using h⟩

/-! ## Claim C5: RAM store/load lemmas and the OTC DMA transfer -/

/-- Little-endian byte reassembly inverts byte splitting, modulo 2^32. -/
theorem bytes_reassemble (v : Nat) :
    (v >>> 0) % 256 ||| ((v >>> 8) % 256) <<< 8 ||| ((v >>> 16) % 256) <<< 16 |||
      ((v >>> 24) % 256) <<< 24 = v % U32LIM := by
  have h256 : (256 : Nat) = 2 ^ 8 := by norm_num
  have hU : U32LIM = 2 ^ 32 := by norm_num [U32LIM]
  rw [h256, hU]
  apply Nat.eq_of_testBit_eq
  intro i
  simp only [Nat.testBit_lor, Nat.testBit_shiftLeft, Nat.testBit_mod_two_pow,
    Nat.testBit_shiftRight, ge_iff_le]
  rcases Nat.lt_or_ge i 8 with h8 | h8
  · simp [show i < 8 from h8, show ¬ 8 ≤ i from by omega,
      show ¬ 16 ≤ i from by omega, show ¬ 24 ≤ i from by omega,
      show i < 32 from by omega]
  rcases Nat.lt_or_ge i 16 with h16 | h16
  · simp [show ¬ i < 8 from by omega, show 8 ≤ i from h8,
      show i - 8 < 8 from by omega, show ¬ 16 ≤ i from by omega,
      show ¬ 24 ≤ i from by omega, show i < 32 from by omega,
      show 8 + (i - 8) = i from by omega]
  rcases Nat.lt_or_ge i 24 with h24 | h24
  · simp [show ¬ i < 8 from by omega, show 8 ≤ i from h8,
      show ¬ i - 8 < 8 from by omega, show 16 ≤ i from h16,
      show i - 16 < 8 from by omega, show ¬ 24 ≤ i from by omega,
      show i < 32 from by omega, show 16 + (i - 16) = i from by omega]
  rcases Nat.lt_or_ge i 32 with h32 | h32
  · simp [show ¬ i < 8 from by omega, show 8 ≤ i from h8,
      show ¬ i - 8 < 8 from by omega, show 16 ≤ i from h16,
      show ¬ i - 16 < 8 from by omega, show 24 ≤ i from h24,
      show i - 24 < 8 from by omega, show i < 32 from h32,
      show 24 + (i - 24) = i from by omega]
  · simp [show ¬ i < 8 from by omega, show ¬ i - 8 < 8 from by omega,
      show ¬ i - 16 < 8 from by omega, show ¬ i - 24 < 8 from by omega,
      show ¬ i < 32 from by omega]

/-- Bytes written by Ram::store32 do not leak outside offsets q .. q+3. -/
theorem ram_data_store32_ne (r : Ram) (q v b : Nat) (hb : b < q ∨ q + 3 < b) :
    (r.store32 q v).data b = r.data b := by
  unfold Ram.store32
  dsimp only
  rw [Function.update_noteq (show b ≠ q + 3 from by omega),
      Function.update_noteq (show b ≠ q + 2 from by omega),
      Function.update_noteq (show b ≠ q + 1 from by omega),
      Function.update_noteq (show b ≠ q + 0 from by omega)]

/-- Ram::load32 is unchanged by a disjoint Ram::store32. -/
theorem ram_load32_store32_disjoint (r : Ram) (p q v : Nat)
    (h : p + 4 ≤ q ∨ q + 4 ≤ p) :
    (r.store32 q v).load32 p = r.load32 p := by
  unfold Ram.load32
  rw [ram_data_store32_ne r q v (p + 0) (by omega),
      ram_data_store32_ne r q v (p + 1) (by omega),
      ram_data_store32_ne r q v (p + 2) (by omega),
      ram_data_store32_ne r q v (p + 3) (by omega)]

/-- Ram::load32 after Ram::store32 at the same offset returns the stored
word (mod 2^32). -/
theorem ram_store32_load32 (r : Ram) (q v : Nat) :
    (r.store32 q v).load32 q = v % U32LIM := by
  unfold Ram.load32 Ram.store32
  dsimp only
  rw [Function.update_noteq (show q + 0 ≠ q + 3 from by omega),
      Function.update_noteq (show q + 0 ≠ q + 2 from by omega),
      Function.update_noteq (show q + 0 ≠ q + 1 from by omega),
      Function.update_same,
      Function.update_noteq (show q + 1 ≠ q + 3 from by omega),
      Function.update_noteq (show q + 1 ≠ q + 2 from by omega),
      Function.update_same,
      Function.update_noteq (show q + 2 ≠ q + 3 from by omega),
      Function.update_same,
      Function.update_same]
  exact bytes_reassemble v

/-- Masking an aligned RAM address below 2 MiB with 0x1FFFFC is the
identity. -/
theorem land_1FFFFC (a : Nat) (h4 : a % 4 = 0) (hlt : a < 0x200000) :
    a &&& 0x1FFFFC = a := by
  apply Nat.eq_of_testBit_eq
  intro i
  rw [Nat.testBit_land]
  rw [show (0x1FFFFC : Nat) = (2 ^ 19 - 1) <<< 2 from by decide]
  rw [Nat.testBit_shiftLeft, Nat.testBit_two_pow_sub_one]
  rcases Nat.lt_or_ge i 2 with h2 | h2
  · have hf : a.testBit i = false := by
      interval_cases i
      · rw [Nat.testBit_to_div_mod]
        simp only [pow_zero, Nat.div_one, decide_eq_false_iff_not]
        omega
      · rw [Nat.testBit_to_div_mod]
        simp only [pow_one, decide_eq_false_iff_not]
        omega
    simp [hf, show ¬ 2 ≤ i from by omega]
  rcases Nat.lt_or_ge i 21 with h21 | h21
  · simp [show 2 ≤ i from h2, show i - 2 < 19 from by omega, ge_iff_le]
  · have hf : a.testBit i = false :=
      Nat.testBit_eq_false_of_lt
        (lt_of_lt_of_le hlt (le_trans (by norm_num)
          (Nat.pow_le_pow_right (by norm_num) h21)))
    simp [hf, show ¬ i - 2 < 19 from by omega]

/-- Rust wrapping_sub by 4 on a small address is plain subtraction. -/
theorem wsub32_small (a : Nat) (hge : 4 ≤ a) (hlt : a < U32LIM) :
    wsub32 a 4 = a - 4 := by
  unfold wsub32 U32LIM at *
  omega

/-- The signed +4 DMA step on a small address is plain addition. -/
theorem wadd32i_four (a : Nat) (h : a + 4 < U32LIM) : wadd32i a 4 = a + 4 := by
  unfold wadd32i u32ofInt U32LIM at *
  omega

/-- One unfolding of the OTC ToRam block-transfer loop. -/
theorem otcLoop_step (k addr : Nat) (ic : Interconnect) :
    Interconnect.dmaBlockLoop Port.Otc Direction.ToRam 4 addr (k + 1) ic =
      Interconnect.dmaBlockLoop Port.Otc Direction.ToRam 4 (wadd32i addr 4) k
        { ic with ram := ic.ram.store32 (addr &&& 0x1FFFFC) (if k = 0 then 0xFFFFFF else wsub32 addr 4 &&& 0x1FFFFF) } := by
  by_cases hk : k = 0 <;> simp [Interconnect.dmaBlockLoop, hk]

/-- The OTC ToRam block-transfer loop writes the reversed linked-list
skeleton: the word at the final iteration is 0xFFFFFF and every earlier
word is its own address minus 4, masked to 0x1FFFFF; RAM below the start
address is untouched. -/
theorem otcLoop_ram (k : Nat) : ∀ (addr : Nat) (ic ic' : Interconnect),
    addr % 4 = 0 → 4 ≤ addr → addr + 4 * k ≤ 0x200000 →
    Interconnect.dmaBlockLoop Port.Otc Direction.ToRam 4 addr k ic = some ic' →
    (∀ p, p + 4 ≤ addr → ic'.ram.load32 p = ic.ram.load32 p) ∧
    (∀ i, i < k → ic'.ram.load32 (addr + 4 * i) =
      if i + 1 = k then 0xFFFFFF else (addr + 4 * i - 4) &&& 0x1FFFFF) := by
  induction k with
  | zero =>
    intro addr ic ic' _ _ _ hl
    have hic : ic = ic' := Option.some_inj.mp hl
    subst hic
    exact ⟨fun _ _ => rfl, fun i hi => absurd hi (Nat.not_lt_zero i)⟩
  | succ k ih =>
    intro addr ic ic' h4 hge hle hl
    rw [otcLoop_step k addr ic] at hl
    rw [land_1FFFFC addr h4 (by omega),
        wsub32_small addr hge (by simp only [U32LIM]; omega),
        wadd32i_four addr (by simp only [U32LIM]; omega)] at hl
    obtain ⟨hframe, hbody⟩ :=
      ih (addr + 4)
        { ic with ram := ic.ram.store32 addr (if k = 0 then 0xFFFFFF else (addr - 4) &&& 0x1FFFFF) }
        ic' (by omega) (by omega) (by omega) hl
    have hw : (if k = 0 then 0xFFFFFF else (addr - 4) &&& 0x1FFFFF) < U32LIM := by
      have h1 : (addr - 4) &&& 0x1FFFFF ≤ 0x1FFFFF := Nat.and_le_right
      by_cases hk : k = 0 <;> simp only [hk, if_true, if_false, U32LIM, reduceIte] <;> omega
    constructor
    · intro p hp
      rw [hframe p (by omega)]
      exact ram_load32_store32_disjoint ic.ram p addr _ (Or.inl hp)
    · intro i hi
      match i with
      | 0 =>
        rw [show addr + 4 * 0 = addr from by omega]
        rw [hframe addr (by omega)]
        rw [ram_store32_load32]
        rw [Nat.mod_eq_of_lt hw]
        by_cases hk : k = 0 <;> simp [hk]
      | j + 1 =>
        have hj : j < k := by omega
        have := hbody j hj
        rw [show addr + 4 * (j + 1) = addr + 4 + 4 * j from by omega]
        rw [this]
        by_cases hjk : j + 1 = k
        · simp [hjk]
        · rw [if_neg hjk, if_neg (by omega)]

/-- Claim C5: a completed OTC (channel 6) ToRam block transfer of N words
stores 0x00FFFFFF on the final iteration and, at every earlier iteration,
the iteration address minus 4 masked with 0x1FFFFF; concretely, programming
channel 6 with base 0x10, block size 4 and a manual-sync control word with
trigger and enable set leaves RAM[0x10] = 0x00000C, RAM[0x14] = 0x000010,
RAM[0x18] = 0x000014 and RAM[0x1C] = 0xFFFFFF. -/
theorem claim_C5_otc_dma :
    (∀ (ic ic' : Interconnect) (n base : Nat),
      (ic.dma.channel Port.Otc).direction = Direction.ToRam →
      (ic.dma.channel Port.Otc).step = DmaStep.Increment →
      (ic.dma.channel Port.Otc).sync = DmaSync.Manual →
      (ic.dma.channel Port.Otc).base = base →
      (ic.dma.channel Port.Otc).block_size = n →
      base % 4 = 0 → 4 ≤ base → base + 4 * n ≤ 0x200000 →
      ic.do_dma_block Port.Otc = some ic' →
      ∀ i, i < n → ic'.ram.load32 (base + 4 * i) =
        if i + 1 = n then 0xFFFFFF else (base + 4 * i - 4) &&& 0x1FFFFF) ∧
    (((icZero.store32 0x1F8010E0 0x10).bind fun ic =>
        (ic.store32 0x1F8010E4 4).bind fun ic =>
          ic.store32 0x1F8010E8 0x11000000).map
      (fun ic => (ic.ram.load32 0x10, ic.ram.load32 0x14,
                  ic.ram.load32 0x18, ic.ram.load32 0x1C)) =
      some (0x00000C, 0x000010, 0x000014, 0xFFFFFF)) := by
  constructor
  · intro ic ic' n base hdir hstep hsync hbase hbs hb4 hbge hble h
    have htsize : (ic.dma.channel Port.Otc).transfer_size = some n := by
      unfold Channel.transfer_size
      rw [hsync, hbs]
    unfold Interconnect.do_dma_block at h
    simp only [hstep, hdir, hbase, htsize, Option.pure_def, Option.bind_eq_bind,
      Option.some_bind] at h
    cases hL : Interconnect.dmaBlockLoop Port.Otc Direction.ToRam 4 base n ic with
    | none =>
      rw [hL] at h
      simp at h
    | some icL =>
      rw [hL] at h
      simp only [Option.pure_def, Option.some_bind, Option.some_inj] at h
      obtain ⟨hframe, hbody⟩ := otcLoop_ram n base ic icL hb4 hbge hble hL
      intro i hi
      rw [← h]
      exact hbody i hi
  · rfl

/-- The OTC channel programmed for a manual 4-word transfer from base 0x10,
enabled and triggered. -/
def otcChannel : Channel :=
  { Channel.new with base := 0x10, block_size := 4, enable := true, trigger := true }

/-- An interconnect whose OTC channel is programmed as otcChannel. -/
def icOtc : Interconnect :=
  { icZero with dma := Dma.new.set_channel Port.Otc otcChannel }

set_option maxRecDepth 10000 in
/-- The interconnect after the OTC transfer completes. -/
def icOtcResult : Interconnect := (icOtc.do_dma_block Port.Otc).get (by decide)

/-- Witness for C5: the final word of the 4-word OTC transfer from 0x10 is
the 0xFFFFFF terminator. -/
theorem claim_C5_otc_dma_witness :
    (icOtc.do_dma_block Port.Otc = some icOtcResult ∧
     (icOtc.dma.channel Port.Otc).base = 0x10) ∧
    icOtcResult.ram.load32 (0x10 + 4 * 3) = 0xFFFFFF :=
  ⟨⟨(Option.some_get _).symm, rfl⟩, by
    have h := (claim_C5_otc_dma.1 icOtc icOtcResult 4 0x10 rfl rfl rfl rfl rfl
      (by decide) (by decide) (by decide) (Option.some_get _).symm) 3 (by decide)
    simpa using h⟩

/-! ## Claim C1: load-delay slot -/

/-- RAM holding LW r2, 0(r1) at 0x0, ORI r3, r2, 0 at 0x4 and the word
0xDEADBEEF at 0x100. -/
def c1ram : Ram :=
  ((Ram.new.store32 0x0 0x8C220000).store32 0x4 0x34430000).store32 0x100 0xDEADBEEF

/-- The register file for the load-delay scenario: r1 = 0x100 (the load
address), r2 = old (the value the delay slot must still observe). -/
def c1regs (old : Nat) : Nat → Nat :=
  fun j => if j = 0 then 0 else if j = 1 then 0x100 else if j = 2 then old
    else 0xDEADBEEF

/-- The CPU about to execute the LW/ORI pair. -/
def c1cpu (old : Nat) : Cpu :=
  { Cpu.new { icZero with ram := c1ram } with
    pc := 0, next_pc := 4, regs := c1regs old, out_regs := c1regs old }

/-- A successful Cpu::load::<u32> changes neither register file. -/
theorem load32_regs (c : Cpu) (a v : Nat) (c' : Cpu)
    (h : c.load32 a = some (v, c')) :
    c'.regs = c.regs ∧ c'.out_regs = c.out_regs ∧ c'.load = c.load := by
  by_cases hw : c.watchpoints.contains a <;>
    simp only [Cpu.load32, hw, if_true, if_false, Bool.false_eq_true] at h <;>
    cases hl : c.inter.load32 a <;> rw [hl] at h <;> simp at h <;>
    rw [h.2.symm] <;> exact ⟨rfl, rfl, rfl⟩

set_option maxRecDepth 1000000 in
/-- Claim C1: the load-delay slot.  First, in general: an aligned LW whose bus
access succeeds writes the loaded value only into the pending-load slot
(load := (rt, v)), leaving both register files untouched, so the instruction
executed next still reads the OLD value of rt.  Second, the concrete scenario:
from c1cpu (LW r2, 0(r1) with r1 = 0x100, [0x100] = 0xDEADBEEF, r2 previously
0x11111111, then ORI r3, r2, 0), one step leaves r2 = 0x11111111 with pending
load (2, 0xDEADBEEF), and after the ORI has executed and the delayed load has
been committed (steps 2-10 only drain the stall counter) r3 = 0x11111111 and
r2 = 0xDEADBEEF. -/
theorem claim_C1_load_delay :
    (∀ (c : Cpu) (i : Instruction) (v : Nat) (c' : Cpu),
        wadd32 (c.reg i.s) i.imm_se % 4 = 0 →
        c.load32 (wadd32 (c.reg i.s) i.imm_se) = some (v, c') →
        c.op_lw i = some { c' with load := (i.t, v) } ∧
        c'.regs = c.regs ∧ c'.out_regs = c.out_regs) ∧
    ((Cpu.stepN 1 (c1cpu 0x11111111)).map fun c => (c.regs 2, c.load)) =
      some (0x11111111, (2, 0xDEADBEEF)) ∧
    ((Cpu.stepN 11 (c1cpu 0x11111111)).map fun c => (c.regs 3, c.regs 2)) =
      some (0x11111111, 0xDEADBEEF) := by
  refine ⟨fun c i v c' halign hl => ?_, rfl, rfl⟩
  refine ⟨?_, (load32_regs c _ v c' hl).1, (load32_regs c _ v c' hl).2.1⟩
  simp only [Cpu.op_lw, halign, if_pos, hl, Option.pure_def, Option.bind_eq_bind,
    Option.some_bind]

/-- The state Cpu::load::<u32> returns in the C1 scenario: only the stall
counter moves. -/
def c1w : Cpu := { c1cpu 0x11111111 with stalls := (c1cpu 0x11111111).stalls + 2 }

set_option maxRecDepth 1000000 in
/-- Witness for C1: the general op_lw half applied at the scenario's concrete
LW r2, 0(r1) instruction word 0x8C220000. -/
theorem claim_C1_load_delay_witness :
    (c1cpu 0x11111111).op_lw ⟨0x8C220000⟩ =
      some { c1w with load := (2, 0xDEADBEEF) } ∧
    c1w.regs = (c1cpu 0x11111111).regs ∧
    c1w.out_regs = (c1cpu 0x11111111).out_regs := by
  have h := claim_C1_load_delay.1 (c1cpu 0x11111111) ⟨0x8C220000⟩ 0xDEADBEEF c1w
    (by decide) (by rfl)
  exact h

/-! ## Claim C6: the register-zero invariant -/

/-- Transporting a zero at index 0 along an equality of register files. -/
theorem out0_of_eq {f g : Nat → Nat} (hfg : f = g) (h : g 0 = 0) : f 0 = 0 := by
  rw [hfg]; exact h

/-- Cpu::set_reg forces register 0 of the out-register file to zero. -/
theorem set_reg_zero (c : Cpu) (i v : Nat) : (c.set_reg i v).out_regs 0 = 0 := by
  show Function.update (Function.update c.out_regs i v) 0 0 0 = 0
  rw [Function.update_same]

/-- Cpu::exception changes neither register file. -/
theorem exception_frame (c : Cpu) (e : Exc) :
    (c.exception e).regs = c.regs ∧ (c.exception e).out_regs = c.out_regs := by
  simp only [Cpu.exception]
  constructor <;> (split <;> rfl)

/-- Cpu::exception keeps register 0 of the out-register file at zero. -/
theorem exception_zero (c : Cpu) (e : Exc) (h : c.out_regs 0 = 0) :
    (c.exception e).out_regs 0 = 0 :=
  out0_of_eq (exception_frame c e).2 h

/-- Cpu::branch does not write the register files. -/
theorem branch_keeps_zero (c : Cpu) (o : Nat) (h : c.out_regs 0 = 0) :
    (c.branch' o).out_regs 0 = 0 := h

/-- Cpu::debug_bios_func changes neither register file. -/
theorem debug_bios_regs (c : Cpu) :
    c.debug_bios_func.regs = c.regs ∧ c.debug_bios_func.out_regs = c.out_regs := by
  simp only [Cpu.debug_bios_func]
  constructor <;> (split <;> ((try split) <;> rfl))

/-- A successful Cpu::load::<u16> changes neither register file. -/
theorem load16_regs (c : Cpu) (a v : Nat) (c' : Cpu)
    (h : c.load16 a = some (v, c')) :
    c'.regs = c.regs ∧ c'.out_regs = c.out_regs := by
  by_cases hw : c.watchpoints.contains a <;>
    simp only [Cpu.load16, hw, if_true, if_false, Bool.false_eq_true] at h <;>
    cases hl : c.inter.load16 a <;> rw [hl] at h <;> simp at h <;>
    rw [h.2.symm] <;> exact ⟨rfl, rfl⟩

/-- A successful Cpu::load::<u8> changes neither register file. -/
theorem load8_regs (c : Cpu) (a v : Nat) (c' : Cpu)
    (h : c.load8 a = some (v, c')) :
    c'.regs = c.regs ∧ c'.out_regs = c.out_regs := by
  by_cases hw : c.watchpoints.contains a <;>
    simp only [Cpu.load8, hw, if_true, if_false, Bool.false_eq_true] at h <;>
    cases hl : c.inter.load8 a <;> rw [hl] at h <;> simp at h <;>
    rw [h.2.symm] <;> exact ⟨rfl, rfl⟩

/-- A successful Cpu::store::<u32> changes neither register file. -/
theorem store32_regs (c : Cpu) (a v : Nat) (c' : Cpu)
    (h : c.store32 a v = some c') :
    c'.regs = c.regs ∧ c'.out_regs = c.out_regs := by
  simp only [Cpu.store32] at h
  repeat' split at h
  all_goals
    first
      | exact Option.noConfusion h
      | (rw [Option.some_inj] at h; subst h; exact ⟨rfl, rfl⟩)

/-- A successful Cpu::store::<u16> changes neither register file. -/
theorem store16_regs (c : Cpu) (a v : Nat) (c' : Cpu)
    (h : c.store16 a v = some c') :
    c'.regs = c.regs ∧ c'.out_regs = c.out_regs := by
  simp only [Cpu.store16] at h
  repeat' split at h
  all_goals
    first
      | exact Option.noConfusion h
      | (rw [Option.some_inj] at h; subst h; exact ⟨rfl, rfl⟩)

/-- A successful Cpu::store::<u8> changes neither register file. -/
theorem store8_regs (c : Cpu) (a v : Nat) (c' : Cpu)
    (h : c.store8 a v = some c') :
    c'.regs = c.regs ∧ c'.out_regs = c.out_regs := by
  simp only [Cpu.store8] at h
  repeat' split at h
  all_goals
    first
      | exact Option.noConfusion h
      | (rw [Option.some_inj] at h; subst h; exact ⟨rfl, rfl⟩)

/-- Cpu::op_lb only touches the pending-load slot. -/
theorem op_lb_zero (c : Cpu) (i : Instruction) (c' : Cpu)
    (h : c.out_regs 0 = 0) (hd : c.op_lb i = some c') : c'.out_regs 0 = 0 := by
  simp only [Cpu.op_lb, Option.pure_def, Option.bind_eq_bind] at hd
  rw [Option.bind_eq_some] at hd
  obtain ⟨⟨v, cm⟩, hl, hp⟩ := hd
  dsimp only at hp
  rw [Option.some_inj] at hp; subst hp
  exact out0_of_eq (load8_regs c _ v cm hl).2 h

/-- Cpu::op_lbu only touches the pending-load slot. -/
theorem op_lbu_zero (c : Cpu) (i : Instruction) (c' : Cpu)
    (h : c.out_regs 0 = 0) (hd : c.op_lbu i = some c') : c'.out_regs 0 = 0 := by
  simp only [Cpu.op_lbu, Option.pure_def, Option.bind_eq_bind] at hd
  rw [Option.bind_eq_some] at hd
  obtain ⟨⟨v, cm⟩, hl, hp⟩ := hd
  dsimp only at hp
  rw [Option.some_inj] at hp; subst hp
  exact out0_of_eq (load8_regs c _ v cm hl).2 h

/-- Cpu::op_lh only touches the pending-load slot or raises an exception. -/
theorem op_lh_zero (c : Cpu) (i : Instruction) (c' : Cpu)
    (h : c.out_regs 0 = 0) (hd : c.op_lh i = some c') : c'.out_regs 0 = 0 := by
  simp only [Cpu.op_lh, Option.pure_def, Option.bind_eq_bind] at hd
  split at hd
  · rw [Option.bind_eq_some] at hd
    obtain ⟨⟨v, cm⟩, hl, hp⟩ := hd
    dsimp only at hp
    rw [Option.some_inj] at hp; subst hp
    exact out0_of_eq (load16_regs c _ v cm hl).2 h
  · rw [Option.some_inj] at hd; subst hd
    exact exception_zero _ _ h

/-- Cpu::op_lhu only touches the pending-load slot or raises an exception. -/
theorem op_lhu_zero (c : Cpu) (i : Instruction) (c' : Cpu)
    (h : c.out_regs 0 = 0) (hd : c.op_lhu i = some c') : c'.out_regs 0 = 0 := by
  simp only [Cpu.op_lhu, Option.pure_def, Option.bind_eq_bind] at hd
  split at hd
  · rw [Option.bind_eq_some] at hd
    obtain ⟨⟨v, cm⟩, hl, hp⟩ := hd
    dsimp only at hp
    rw [Option.some_inj] at hp; subst hp
    exact out0_of_eq (load16_regs c _ v cm hl).2 h
  · rw [Option.some_inj] at hd; subst hd
    exact exception_zero _ _ h

/-- Cpu::op_lw only touches the pending-load slot or raises an exception. -/
theorem op_lw_zero (c : Cpu) (i : Instruction) (c' : Cpu)
    (h : c.out_regs 0 = 0) (hd : c.op_lw i = some c') : c'.out_regs 0 = 0 := by
  simp only [Cpu.op_lw, Option.pure_def, Option.bind_eq_bind] at hd
  split at hd
  · rw [Option.bind_eq_some] at hd
    obtain ⟨⟨v, cm⟩, hl, hp⟩ := hd
    dsimp only at hp
    rw [Option.some_inj] at hp; subst hp
    exact out0_of_eq (load32_regs c _ v cm hl).2.1 h
  · rw [Option.some_inj] at hd; subst hd
    exact exception_zero _ _ h

/-- Cpu::op_lwl only touches the pending-load slot. -/
theorem op_lwl_zero (c : Cpu) (i : Instruction) (c' : Cpu)
    (h : c.out_regs 0 = 0) (hd : c.op_lwl i = some c') : c'.out_regs 0 = 0 := by
  simp only [Cpu.op_lwl, Option.pure_def, Option.bind_eq_bind] at hd
  rw [Option.bind_eq_some] at hd
  obtain ⟨⟨w, cm⟩, hl, hd⟩ := hd
  dsimp only at hd
  split at hd <;>
    first
      | (rw [Option.some_bind, Option.some_inj] at hd; subst hd;
         exact out0_of_eq (load32_regs c _ w cm hl).2.1 h)
      | simp at hd

/-- Cpu::op_lwr only touches the pending-load slot. -/
theorem op_lwr_zero (c : Cpu) (i : Instruction) (c' : Cpu)
    (h : c.out_regs 0 = 0) (hd : c.op_lwr i = some c') : c'.out_regs 0 = 0 := by
  simp only [Cpu.op_lwr, Option.pure_def, Option.bind_eq_bind] at hd
  rw [Option.bind_eq_some] at hd
  obtain ⟨⟨w, cm⟩, hl, hd⟩ := hd
  dsimp only at hd
  split at hd <;>
    first
      | (rw [Option.some_bind, Option.some_inj] at hd; subst hd;
         exact out0_of_eq (load32_regs c _ w cm hl).2.1 h)
      | simp at hd

/-- Cpu::op_sb never writes a register. -/
theorem op_sb_zero (c : Cpu) (i : Instruction) (c' : Cpu)
    (h : c.out_regs 0 = 0) (hd : c.op_sb i = some c') : c'.out_regs 0 = 0 := by
  simp only [Cpu.op_sb] at hd
  split at hd
  · rw [Option.some_inj] at hd; subst hd; exact h
  · exact out0_of_eq (store8_regs _ _ _ _ hd).2 h

/-- Cpu::op_sh never writes a register. -/
theorem op_sh_zero (c : Cpu) (i : Instruction) (c' : Cpu)
    (h : c.out_regs 0 = 0) (hd : c.op_sh i = some c') : c'.out_regs 0 = 0 := by
  simp only [Cpu.op_sh] at hd
  split at hd
  · rw [Option.some_inj] at hd; subst hd; exact h
  · split at hd
    · exact out0_of_eq (store16_regs _ _ _ _ hd).2 h
    · rw [Option.some_inj] at hd; subst hd
      exact exception_zero _ _ h

/-- Cpu::op_sw never writes a register. -/
theorem op_sw_zero (c : Cpu) (i : Instruction) (c' : Cpu)
    (h : c.out_regs 0 = 0) (hd : c.op_sw i = some c') : c'.out_regs 0 = 0 := by
  simp only [Cpu.op_sw] at hd
  split at hd
  · rw [Option.some_inj] at hd; subst hd; exact h
  · split at hd
    · exact out0_of_eq (store32_regs _ _ _ _ hd).2 h
    · rw [Option.some_inj] at hd; subst hd
      exact exception_zero _ _ h

/-- Cpu::op_swl never writes a register. -/
theorem op_swl_zero (c : Cpu) (i : Instruction) (c' : Cpu)
    (h : c.out_regs 0 = 0) (hd : c.op_swl i = some c') : c'.out_regs 0 = 0 := by
  simp only [Cpu.op_swl, Option.pure_def, Option.bind_eq_bind] at hd
  rw [Option.bind_eq_some] at hd
  obtain ⟨⟨w, cm⟩, hl, hd⟩ := hd
  dsimp only at hd
  split at hd <;>
    first
      | (rw [Option.some_bind] at hd;
         exact out0_of_eq
           (Eq.trans (store32_regs cm _ _ _ hd).2 (load32_regs c _ w cm hl).2.1) h)
      | simp at hd

/-- Cpu::op_swr never writes a register. -/
theorem op_swr_zero (c : Cpu) (i : Instruction) (c' : Cpu)
    (h : c.out_regs 0 = 0) (hd : c.op_swr i = some c') : c'.out_regs 0 = 0 := by
  simp only [Cpu.op_swr, Option.pure_def, Option.bind_eq_bind] at hd
  rw [Option.bind_eq_some] at hd
  obtain ⟨⟨w, cm⟩, hl, hd⟩ := hd
  dsimp only at hd
  split at hd <;>
    first
      | (rw [Option.some_bind] at hd;
         exact out0_of_eq
           (Eq.trans (store32_regs cm _ _ _ hd).2 (load32_regs c _ w cm hl).2.1) h)
      | simp at hd

/-- Cpu::op_mfc0 only touches the pending-load slot. -/
theorem op_mfc0_zero (c : Cpu) (i : Instruction) (c' : Cpu)
    (h : c.out_regs 0 = 0) (hd : c.op_mfc0 i = some c') : c'.out_regs 0 = 0 := by
  simp only [Cpu.op_mfc0] at hd
  split at hd <;>
    first
      | exact Option.noConfusion hd
      | (rw [Option.some_inj] at hd; subst hd; exact h)

/-- Cpu::op_mtc0 never writes a general-purpose register. -/
theorem op_mtc0_zero (c : Cpu) (i : Instruction) (c' : Cpu)
    (h : c.out_regs 0 = 0) (hd : c.op_mtc0 i = some c') : c'.out_regs 0 = 0 := by
  simp only [Cpu.op_mtc0] at hd
  split at hd <;>
    first
      | exact Option.noConfusion hd
      | (rw [Option.some_inj] at hd; subst hd; exact h)
      | (split at hd <;>
          first
            | exact Option.noConfusion hd
            | (rw [Option.some_inj] at hd; subst hd; exact h))

/-- Cpu::op_rfe never writes a general-purpose register. -/
theorem op_rfe_zero (c : Cpu) (i : Instruction) (c' : Cpu)
    (h : c.out_regs 0 = 0) (hd : c.op_rfe i = some c') : c'.out_regs 0 = 0 := by
  simp only [Cpu.op_rfe] at hd
  split at hd
  · exact Option.noConfusion hd
  · rw [Option.some_inj] at hd; subst hd; exact h

/-- Cpu::op_cop0 keeps register 0 of the out-register file at zero. -/
theorem op_cop0_zero (c : Cpu) (i : Instruction) (c' : Cpu)
    (h : c.out_regs 0 = 0) (hd : c.op_cop0 i = some c') : c'.out_regs 0 = 0 := by
  simp only [Cpu.op_cop0] at hd
  split at hd <;>
    first
      | exact op_mfc0_zero _ _ _ h hd
      | exact op_mtc0_zero _ _ _ h hd
      | exact op_rfe_zero _ _ _ h hd
      | simp [Cpu.op_cfc0] at hd
      | simp [Cpu.op_ctc0] at hd
      | exact Option.noConfusion hd

/-- Cpu::op_mtc2 never writes a general-purpose register. -/
theorem op_mtc2_zero (c : Cpu) (i : Instruction) (c' : Cpu)
    (h : c.out_regs 0 = 0) (hd : c.op_mtc2 i = some c') : c'.out_regs 0 = 0 := by
  simp only [Cpu.op_mtc2, Option.pure_def, Option.bind_eq_bind] at hd
  rw [Option.bind_eq_some] at hd
  obtain ⟨g, hg, hp⟩ := hd
  try dsimp only at hp
  rw [Option.some_inj] at hp; subst hp
  exact h

/-- Cpu::op_mfc2 writes its register through Cpu::set_reg. -/
theorem op_mfc2_zero (c : Cpu) (i : Instruction) (c' : Cpu)
    (_h : c.out_regs 0 = 0) (hd : c.op_mfc2 i = some c') : c'.out_regs 0 = 0 := by
  simp only [Cpu.op_mfc2, Option.pure_def, Option.bind_eq_bind] at hd
  rw [Option.bind_eq_some] at hd
  obtain ⟨v, hv, hp⟩ := hd
  try dsimp only at hp
  rw [Option.some_inj] at hp; subst hp
  exact set_reg_zero _ _ _

/-- Cpu::op_cop2 keeps register 0 of the out-register file at zero. -/
theorem op_cop2_zero (c : Cpu) (i : Instruction) (c' : Cpu)
    (h : c.out_regs 0 = 0) (hd : c.op_cop2 i = some c') : c'.out_regs 0 = 0 := by
  simp only [Cpu.op_cop2, Option.pure_def, Option.bind_eq_bind] at hd
  split at hd
  · rw [Option.bind_eq_some] at hd
    obtain ⟨g, hg, hp⟩ := hd
    try dsimp only at hp
    rw [Option.some_inj] at hp; subst hp
    exact h
  · split at hd <;>
      first
        | exact op_mfc2_zero _ _ _ h hd
        | exact op_mtc2_zero _ _ _ h hd
        | (rw [Option.some_inj] at hd; subst hd;
           first
             | exact set_reg_zero _ _ _
             | exact h)
        | exact Option.noConfusion hd

set_option maxRecDepth 10000 in
set_option maxHeartbeats 2000000 in
/-- Cpu::decode_and_execute keeps register 0 of the out-register file at
zero: every instruction writes its destination through Cpu::set_reg, through
the pending-load slot, or not at all. -/
theorem decode_zero (c : Cpu) (i : Instruction) (c' : Cpu)
    (h : c.out_regs 0 = 0) (hd : c.decode_and_execute i = some c') :
    c'.out_regs 0 = 0 := by
  have hcb : (Cpu.debug_bios_func { c with stalls := c.stalls + 1 }).out_regs 0 = 0 :=
    out0_of_eq (debug_bios_regs _).2 h
  simp only [Cpu.decode_and_execute] at hd
  repeat' split at hd
  all_goals
    first
      | exact op_cop0_zero _ _ _ hcb hd
      | exact op_cop2_zero _ _ _ hcb hd
      | exact op_lb_zero _ _ _ hcb hd
      | exact op_lh_zero _ _ _ hcb hd
      | exact op_lwl_zero _ _ _ hcb hd
      | exact op_lw_zero _ _ _ hcb hd
      | exact op_lbu_zero _ _ _ hcb hd
      | exact op_lhu_zero _ _ _ hcb hd
      | exact op_lwr_zero _ _ _ hcb hd
      | exact op_sb_zero _ _ _ hcb hd
      | exact op_sh_zero _ _ _ hcb hd
      | exact op_sw_zero _ _ _ hcb hd
      | exact op_swl_zero _ _ _ hcb hd
      | exact op_swr_zero _ _ _ hcb hd
      | exact Option.noConfusion hd
      | ((try rw [Option.some_inj] at hd); subst hd;
         (try simp only [Cpu.op_beq, Cpu.op_bne, Cpu.op_blez, Cpu.op_bgtz,
            Cpu.op_bxx, Cpu.op_div, Cpu.op_divu, Cpu.op_add, Cpu.op_addi,
            Cpu.op_sub]);
         repeat' split;
         all_goals
           first
             | exact set_reg_zero _ _ _
             | exact hcb
             | exact exception_zero _ _ hcb
             | (simp only [Cpu.op_jalr, Cpu.op_jal, Cpu.op_j, Cpu.branch',
                  Cpu.set_reg, Cpu.set_cause, Function.update_same, hcb]
                done))

/-- Cpu::step keeps register 0 of both register files at zero: the
pending-load commit goes through Cpu::set_reg, the executed instruction
preserves the invariant, and regs is then overwritten with out_regs. -/
theorem step_zero (c : Cpu) (c' : Cpu) (ev : Option Event)
    (h0 : c.regs 0 = 0) (h1 : c.out_regs 0 = 0)
    (hs : c.step = some (c', ev)) :
    c'.regs 0 = 0 ∧ c'.out_regs 0 = 0 := by
  simp only [Cpu.step, Option.pure_def, Option.bind_eq_bind] at hs
  split at hs
  · rw [Option.some_inj, Prod.mk.injEq] at hs
    obtain ⟨hs1, -⟩ := hs
    subst hs1
    exact ⟨h0, h1⟩
  · split at hs
    · rw [Option.some_inj, Prod.mk.injEq] at hs
      obtain ⟨hs1, -⟩ := hs
      subst hs1
      exact ⟨out0_of_eq (exception_frame _ _).1 h0,
             out0_of_eq (exception_frame _ _).2 h1⟩
    · rw [Option.bind_eq_some] at hs
      obtain ⟨⟨w, c1⟩, hload, hs⟩ := hs
      dsimp only at hs
      split at hs
      · rw [Option.some_bind] at hs
        (try dsimp only at hs)
        split at hs <;>
          (rw [Option.some_inj, Prod.mk.injEq] at hs;
           obtain ⟨hf, -⟩ := hs;
           subst hf;
           constructor <;>
             (apply exception_zero;
              show Function.update
                (Function.update c1.out_regs c1.load.1 c1.load.2) 0 0 0 = 0;
              rw [Function.update_same]))
      · rw [Option.bind_eq_some] at hs
        obtain ⟨c2, hexec, hfin⟩ := hs
        try dsimp only at hfin
        have hc2 : c2.out_regs 0 = 0 := by
          refine decode_zero _ _ _ ?_ hexec
          show Function.update
            (Function.update c1.out_regs c1.load.1 c1.load.2) 0 0 0 = 0
          rw [Function.update_same]
        split at hfin <;>
          (rw [Option.some_inj, Prod.mk.injEq] at hfin;
           obtain ⟨hf, -⟩ := hfin;
           subst hf;
           exact ⟨hc2, hc2⟩)

/-- Iterated stepping preserves the register-zero invariant. -/
theorem stepN_zero (n : Nat) (c c' : Cpu)
    (h0 : c.regs 0 = 0) (h1 : c.out_regs 0 = 0)
    (hs : Cpu.stepN n c = some c') :
    c'.regs 0 = 0 ∧ c'.out_regs 0 = 0 := by
  induction n generalizing c with
  | zero =>
    rw [Cpu.stepN, Option.some_inj] at hs
    subst hs
    exact ⟨h0, h1⟩
  | succ n ih =>
    rw [Cpu.stepN] at hs
    cases hstep : c.step with
    | none => rw [hstep] at hs; exact Option.noConfusion hs
    | some p =>
      obtain ⟨c2, ev⟩ := p
      rw [hstep] at hs
      obtain ⟨g0, g1⟩ := step_zero c c2 ev h0 h1 hstep
      exact ih c2 g0 g1 hs

/-- Claim C6: the register-zero invariant.  At reset register 0 of both
register files is zero, and for every number N of executed steps and every
starting state satisfying the invariant -- hence for every instruction
sequence, including instructions and delayed loads that name register 0 as
their destination -- register 0 still reads zero after stepping N times. -/
theorem claim_C6_register_zero :
    (∀ inter : Interconnect,
      (Cpu.new inter).regs 0 = 0 ∧ (Cpu.new inter).out_regs 0 = 0) ∧
    ∀ (n : Nat) (c c' : Cpu), c.regs 0 = 0 → c.out_regs 0 = 0 →
      Cpu.stepN n c = some c' → c'.regs 0 = 0 := by
  refine ⟨fun inter => ⟨rfl, rfl⟩, fun n c c' h0 h1 hs => (stepN_zero n c c' h0 h1 hs).1⟩

set_option maxRecDepth 1000000 in
/-- Witness for C6: one step from reset on the all-zero interconnect. -/
theorem claim_C6_register_zero_witness :
    ((Cpu.stepN 1 (Cpu.new icZero)).get (by decide)).regs 0 = 0 :=
  claim_C6_register_zero.2 1 (Cpu.new icZero) _ rfl rfl (Option.some_get _).symm
